import Mathlib

/-! # Weather widget: location resolution and unit normalisation

Shallow embedding of `src/weatherapp-code/src/components/Weatherapp/weather.jsx`.

* JavaScript numbers are modelled as exact rationals (`ℚ`); the values
  `undefined`, `null` and `NaN` that the code can meet in a numeric position are
  kept as separate constructors of `JsVal`.  The arithmetic of the code is IEEE double
  arithmetic; the conversion formulas below are its exact counterparts, and no theorem of
  this file states a property of all numbers that depends on how a double operation
  rounds: the formulas are evaluated only at values where the double result and the exact
  result are the same number or round to the same integer.
* The component state (the `useState` cells) is one record, `State`; every
  handler is a function `State → State` that takes the answer of the network
  as an explicit argument.
* In the source the opening lines of `fetchWeather` (lines 93-99:
  `setLoading(true)`, `setError("")`, `try {`, the `fetch` of the forecast URL,
  the `res.ok` test and `const data = await res.json(); err`) are commented out while the
  matching `catch`/`finally` (lines 147-152) and every use of `data` are live, so the module
  as it stands does not parse.  The embedding reads lines 93-99 as code, exactly as they are
  written: line 99 ends in the expression statement `err`, an identifier that is bound only
  inside the `catch` clause, so evaluating it throws a `ReferenceError` right after
  `res.json()` resolves.  Every call of `fetchWeather` therefore ends in its `catch`, and
  the normalisation and the four `set...` calls of lines 101-146 are never reached.  That
  block is still embedded (`buildHourly`, `buildDaily`, `buildCurrent`, `storeForecast`),
  as the function of the payload that its text defines.
-/

namespace WeatherApp

/-! ## JavaScript values in numeric positions -/

/-- A JavaScript value found where the code expects a number. -/
inductive JsVal where
  | undefined
  | null
  | num (q : ℚ)
  | nan
  deriving DecidableEq, Repr

namespace JsVal

/-- ECMAScript `ToNumber`, with `none` standing for `NaN`. -/
def toNumber : JsVal → Option ℚ
  | undefined => none
  | null => some 0
  | num q => some q
  | nan => none

/-- A numeric result as a value: `none` is `NaN`. -/
def ofNumber : Option ℚ → JsVal
  | some q => num q
  | none => nan

/-- An arithmetic expression in one operand: the operand goes through `ToNumber`. -/
def arith (f : ℚ → ℚ) (v : JsVal) : JsVal :=
  ofNumber (v.toNumber.map f)

/-- The nullish coalescing operator `a ?? b`. -/
def orElse (a b : JsVal) : JsVal :=
  match a with
  | undefined => b
  | null => b
  | _ => a

/-- The test `v !== undefined`. -/
def isDefined : JsVal → Bool
  | undefined => false
  | _ => true

end JsVal

/-- Array indexing `arr[i]`: out of range gives `undefined`. -/
def jsIndex (arr : List JsVal) (i : Nat) : JsVal :=
  (arr.get? i).getD JsVal.undefined

/-- The string method `s.startsWith(pre)`. -/
def startsWith (s pre : String) : Bool :=
  pre.toList.isPrefixOf s.toList

/-! ## Data model -/

/-- The `units` state: `"metric" | "imperial"`. -/
inductive Units where
  | metric
  | imperial
  deriving DecidableEq, Repr

/-- The `location` state. -/
structure Location where
  name : String
  lat : ℚ
  lon : ℚ
  deriving DecidableEq, Repr

/-- The object `data.current_weather` of the forecast payload. -/
structure CurrentWeather where
  temperature : JsVal
  windspeed : JsVal
  weathercode : JsVal
  deriving DecidableEq, Repr

/-- A property of a payload group where the code expects an array: absent (`undefined`),
JSON `null`, or an array. -/
inductive JsArr (α : Type) where
  | absent
  | null
  | arr (items : List α)
  deriving DecidableEq, Repr

/-- A destructured property with the default `= []`: the default replaces an absent
property only, so `null` stays `null` (`none`). -/
def JsArr.orEmpty {α : Type} : JsArr α → Option (List α)
  | JsArr.absent => some []
  | JsArr.null => none
  | JsArr.arr items => some items

/-- Whether the property is JSON `null`. -/
def JsArr.isNull {α : Type} : JsArr α → Bool
  | JsArr.null => true
  | _ => false

/-- The elements of the property: none for an absent or `null` one. -/
def JsArr.items {α : Type} : JsArr α → List α
  | JsArr.arr items => items
  | _ => []

/-- The object `data.hourly`: parallel arrays, each absent, `null` or an array. -/
structure HourlyGroup where
  time : JsArr String
  temperature_2m : JsArr JsVal
  relativehumidity_2m : JsArr JsVal
  precipitation : JsArr JsVal
  weathercode : JsArr JsVal
  windspeed_10m : JsArr JsVal
  deriving DecidableEq, Repr

/-- The object `data.daily`: parallel arrays, each absent, `null` or an array. -/
structure DailyGroup where
  time : JsArr String
  temperature_2m_max : JsArr JsVal
  temperature_2m_min : JsArr JsVal
  precipitation_sum : JsArr JsVal
  weathercode : JsArr JsVal
  deriving DecidableEq, Repr

/-- The forecast payload `data`; an absent or `null` group is `none`. -/
structure Payload where
  current_weather : Option CurrentWeather
  hourly : Option HourlyGroup
  daily : Option DailyGroup
  deriving DecidableEq, Repr

/-- One element of the `hourly` state. -/
structure HourlyRecord where
  time : String
  tempC : JsVal
  humidity : JsVal
  precipitation : JsVal
  weathercode : JsVal
  wind : JsVal
  deriving DecidableEq, Repr

/-- One element of the `daily` state. -/
structure DailyRecord where
  date : String
  maxC : JsVal
  minC : JsVal
  precipitationSum : JsVal
  weathercode : JsVal
  deriving DecidableEq, Repr

/-- The object passed to `setCurrent`: the spread of `cw` and the four computed fields. -/
structure Current where
  temperature : JsVal
  windspeed : JsVal
  displayName : String
  tempC : JsVal
  weathercode : JsVal
  wind_mps : JsVal
  deriving DecidableEq, Repr

/-- The component state. -/
structure State where
  query : String
  location : Location
  units : Units
  selectedDayIndex : Int
  loading : Bool
  error : String
  current : Option Current
  hourly : List HourlyRecord
  daily : List DailyRecord
  deriving DecidableEq, Repr

/-- The initial values of the `useState` cells. -/
def initialState : State :=
  { query := ""
    location := { name := "Berlin, Germany", lat := 52.52, lon := 13.405 }
    units := Units.metric
    selectedDayIndex := 0
    loading := false
    error := ""
    current := none
    hourly := []
    daily := [] }

/-! ## Weather code to icon -/

/-- The test `list.includes(code)` on a list of number literals. -/
def includesCode (codes : List ℚ) (code : JsVal) : Bool :=
  match code with
  | JsVal.num q => codes.contains q
  | _ => false

/-- The test `code >= lo && code <= hi`, the operand going through `ToNumber`. -/
def codeBetween (lo hi : ℚ) (code : JsVal) : Bool :=
  match code.toNumber with
  | some q => decide (lo ≤ q) && decide (q ≤ hi)
  | none => false

/-- The test `code === k`. -/
def codeIs (k : ℚ) (code : JsVal) : Bool :=
  match code with
  | JsVal.num q => decide (q = k)
  | _ => false

/-- The function `weatherCodeToEmoji` (lines 39-50). -/
def weatherCodeToEmoji (code : JsVal) : String :=
  if codeBetween 0 1 code then "☀️"
  else if codeIs 2 code then "⛅"
  else if codeIs 3 code then "☁️"
  else if includesCode [45, 48] code then "🌫️"
  else if includesCode [51, 53, 55, 56, 57] code then "🌧️"
  else if includesCode [61, 63, 65, 66, 67] code then "🌧️"
  else if includesCode [71, 73, 75, 77, 85, 86] code then "❄️"
  else if includesCode [95, 96, 99] code then "⛈️"
  else "🌤️"

/-! ## Display helpers -/

/-- What `round` returns: the string `"-"`, an integer, or `NaN`. -/
inductive Rounded where
  | dash
  | int (z : Int)
  | nan
  deriving DecidableEq, Repr

/-- The text of a `Rounded` value in a template literal or a JSX child, for integers below
`10^21` in absolute value (JavaScript prints larger numbers in exponent notation, which is not
modelled). -/
def Rounded.text : Rounded → String
  | Rounded.dash => "-"
  | Rounded.int z => toString z
  | Rounded.nan => "NaN"

/-- The function `Math.round` on a finite number: the nearest integer, ties upwards. -/
def mathRound (q : ℚ) : Int :=
  Int.floor (q + 1 / 2)

/-- The function `round` (lines 62-65). -/
def round (n : JsVal) : Rounded :=
  match n with
  | JsVal.null => Rounded.dash
  | JsVal.undefined => Rounded.dash
  | JsVal.num q => Rounded.int (mathRound q)
  | JsVal.nan => Rounded.nan

/-- The expression `celsius * 9 / 5 + 32` of `toDisplayTemp`, as an exact formula (the code
evaluates it in doubles). -/
def celsiusToFahrenheit (c : ℚ) : ℚ := c * 9 / 5 + 32

/-- The expression `mps * 3.6` of `toDisplayWind`, as an exact formula (the code evaluates it
in doubles). -/
def mpsToKmh (m : ℚ) : ℚ := m * 3.6

/-- The expression `mps * 2.23694` of `toDisplayWind`, as an exact formula (the code evaluates
it in doubles). -/
def mpsToMph (m : ℚ) : ℚ := m * 2.23694

/-- The expression `mm / 25.4` of `toDisplayPrecip`, as an exact formula (the code evaluates
it in doubles). -/
def mmToInches (p : ℚ) : ℚ := p / 25.4

/-- The function `toDisplayTemp` (line 53). -/
def toDisplayTemp (units : Units) (celsius : JsVal) : Rounded :=
  if units = Units.metric then round celsius
  else round (celsius.arith celsiusToFahrenheit)

/-- The function `toDisplayWind` (lines 54-59). -/
def toDisplayWind (units : Units) (mps : JsVal) : String :=
  if units = Units.metric then (round (mps.arith mpsToKmh)).text ++ " km/h"
  else (round (mps.arith mpsToMph)).text ++ " mph"

/-- The function `toDisplayPrecip` (line 60). -/
def toDisplayPrecip (units : Units) (mm : JsVal) : String :=
  if units = Units.metric then (round mm).text ++ " mm"
  else (round (mm.arith mmToInches)).text ++ " in"

/-! ## Requests -/

/-- The query parameter `temperature_unit` of `buildForecastUrl` (line 76). -/
def temperature_unit (units : Units) : String :=
  if units = Units.metric then "celsius" else "fahrenheit"

/-- The query parameter `windspeed_unit` of `buildForecastUrl` (line 77). -/
def windspeed_unit (units : Units) : String :=
  if units = Units.metric then "kmh" else "mph"

/-- The outcome of `fetch(url)` followed by `res.json()` for the forecast request. -/
inductive ForecastResponse where
  | failed (message : String)
  | notOk
  | ok (data : Payload)
  deriving DecidableEq, Repr

/-- One element of the geocoding `results`. -/
structure Place where
  name : String
  admin1 : Option String
  country : Option String
  latitude : ℚ
  longitude : ℚ
  deriving DecidableEq, Repr

/-- The outcome of `fetch(url)` followed by `res.json()` for the geocoding request;
`results` is the field `data.results`, which may be absent. -/
inductive GeocodeResponse where
  | failed (message : String)
  | notOk
  | ok (results : Option (List Place))
  deriving DecidableEq, Repr

/-- The expression `err.message || fallback` of the two `catch` blocks. -/
def messageOr (message fallback : String) : String :=
  if message = "" then fallback else message

/-- The function `geocodePlace` (lines 83-90): a place, or the message of the error thrown. -/
def geocodePlace (resp : GeocodeResponse) : Except String Place :=
  match resp with
  | GeocodeResponse.failed message => Except.error message
  | GeocodeResponse.notOk => Except.error "Geocoding failed"
  | GeocodeResponse.ok none => Except.error "Place not found"
  | GeocodeResponse.ok (some []) => Except.error "Place not found"
  | GeocodeResponse.ok (some (place :: _)) => Except.ok place

/-! ## Normalisation and `fetchWeather` -/

/-- The results of the iterations of a loop, when none of them throws. -/
def allOrThrow {α : Type} : List (Option α) → Option (List α)
  | [] => some []
  | none :: _ => none
  | some a :: rest =>
    match allOrThrow rest with
    | none => none
    | some others => some (a :: others)

/-- The read `field[i]` in a loop of `fetchWeather`: a `TypeError` (`none`) when the
destructured property is `null`, `undefined` past the end of the array. -/
def readAt (field : JsArr JsVal) (i : Nat) : Option JsVal :=
  match field.orEmpty with
  | none => none
  | some items => some (jsIndex items i)

/-- The object pushed by iteration `i` of the hourly loop (lines 109-116). -/
def hourlyRecord (g : HourlyGroup) (time : List String) (i : Nat) : Option HourlyRecord :=
  match readAt g.temperature_2m i with
  | none => none
  | some tempC =>
    match readAt g.relativehumidity_2m i with
    | none => none
    | some humidity =>
      match readAt g.precipitation i with
      | none => none
      | some precipitation =>
        match readAt g.weathercode i with
        | none => none
        | some weathercode =>
          match readAt g.windspeed_10m i with
          | none => none
          | some wind =>
            some { time := time.getD i "", tempC := tempC, humidity := humidity,
                   precipitation := precipitation, weathercode := weathercode, wind := wind }

/-- The hourly loop of `fetchWeather` (lines 105-118); `none` when it throws: `time.length`
on a `null` `time`, or `field[i]` on a `null` field. -/
def buildHourly (data : Payload) : Option (List HourlyRecord) :=
  match data.hourly with
  | none => some []
  | some g =>
    match g.time.orEmpty with
    | none => none
    | some time => allOrThrow ((List.range time.length).map (hourlyRecord g time))

/-- The object pushed by iteration `i` of the daily loop (lines 125-131). -/
def dailyRecord (g : DailyGroup) (time : List String) (i : Nat) : Option DailyRecord :=
  match readAt g.temperature_2m_max i with
  | none => none
  | some maxC =>
    match readAt g.temperature_2m_min i with
    | none => none
    | some minC =>
      match readAt g.precipitation_sum i with
      | none => none
      | some precipitationSum =>
        match readAt g.weathercode i with
        | none => none
        | some weathercode =>
          some { date := time.getD i "", maxC := maxC, minC := minC,
                 precipitationSum := precipitationSum, weathercode := weathercode }

/-- The daily loop of `fetchWeather` (lines 121-133); `none` when it throws. -/
def buildDaily (data : Payload) : Option (List DailyRecord) :=
  match data.daily with
  | none => some []
  | some g =>
    match g.time.orEmpty with
    | none => none
    | some time => allOrThrow ((List.range time.length).map (dailyRecord g time))

/-- The expression `(cw.temperature - 32) * (5 / 9)` of `fetchWeather`, as an exact formula
(the code evaluates it in doubles). -/
def fahrenheitToCelsius (t : ℚ) : ℚ := (t - 32) * (5 / 9)

/-- The expression `cw.windspeed / 3.6` of `fetchWeather`, as an exact formula (the code
evaluates it in doubles). -/
def kmhToMps (v : ℚ) : ℚ := v / 3.6

/-- The expression `cw.windspeed / 2.23694` of `fetchWeather`, as an exact formula (the code
evaluates it in doubles). -/
def mphToMps (v : ℚ) : ℚ := v / 2.23694

/-- The `tempC` field passed to `setCurrent` (line 139). -/
def currentTempC (units : Units) (cw : Option CurrentWeather) : JsVal :=
  match cw with
  | none => JsVal.null
  | some w =>
    if w.temperature.isDefined && decide (units = Units.metric) then w.temperature
    else if w.temperature.isDefined && decide (units = Units.imperial) then
      w.temperature.arith fahrenheitToCelsius
    else JsVal.null

/-- The `wind_mps` field passed to `setCurrent` (line 141). -/
def currentWindMps (units : Units) (cw : Option CurrentWeather) : JsVal :=
  match cw with
  | none => JsVal.null
  | some w =>
    if w.windspeed.isDefined then
      (if units = Units.metric then w.windspeed.arith kmhToMps
       else w.windspeed.arith mphToMps)
    else JsVal.null

/-- The object passed to `setCurrent` (lines 135-142). -/
def buildCurrent (units : Units) (cw : Option CurrentWeather) (displayName : String) : Current :=
  { temperature := match cw with
      | some w => w.temperature
      | none => JsVal.undefined
    windspeed := match cw with
      | some w => w.windspeed
      | none => JsVal.undefined
    displayName := displayName
    tempC := currentTempC units cw
    weathercode := match cw with
      | some w => w.weathercode
      | none => JsVal.null
    wind_mps := currentWindMps units cw }

/-- The block of lines 101-146: normalisation, then `setCurrent`, `setHourly`, `setDaily` and
`setSelectedDayIndex(0)`; `none` when a loop throws.  No call of `fetchWeather` reaches it. -/
def storeForecast (s : State) (displayName : String) (data : Payload) : Option State :=
  match buildHourly data with
  | none => none
  | some h =>
    match buildDaily data with
    | none => none
    | some d =>
      some { s with
        current := some (buildCurrent s.units data.current_weather displayName)
        hourly := h
        daily := d
        selectedDayIndex := 0 }

/-- The message of the `ReferenceError` thrown by the statement `err` of line 99, in the
wording of V8 and SpiderMonkey. -/
def referenceErrorMessage : String := "err is not defined"

set_option linter.unusedVariables false in
/-- The function `fetchWeather` (lines 92-153), run to completion on the answer `resp` of
the forecast provider.  A failed request and a non-2xx answer throw inside the `try`; after
an answer that parses, the statement `err` of line 99 throws before `data` is used.  All
three end in the `catch` (line 149) and the `finally` (line 151). -/
def fetchWeather (s : State) (displayName : String) (resp : ForecastResponse) : State :=
  let s1 := { s with loading := true, error := "" }
  match resp with
  | ForecastResponse.failed message =>
    { s1 with error := messageOr message "Failed to fetch weather", loading := false }
  | ForecastResponse.notOk =>
    { s1 with error := messageOr "Weather API error" "Failed to fetch weather", loading := false }
  | ForecastResponse.ok _ =>
    { s1 with
      error := messageOr referenceErrorMessage "Failed to fetch weather", loading := false }

/-! ## Handlers -/

/-- The template literal that builds `displayName` in `handleSearch` (line 169). -/
def displayNameOf (place : Place) : String :=
  place.name
    ++ (match place.admin1 with
        | some a => if a = "" then "" else ", " ++ a
        | none => "")
    ++ (match place.country with
        | some c => if c = "" then "" else ", " ++ c
        | none => "")

/-- The function `handleSearch` (lines 162-179), run to completion on the answers of the
geocoding and forecast providers. -/
def handleSearch (s : State) (geo : GeocodeResponse) (resp : ForecastResponse) : State :=
  if s.query = "" then s
  else
    let s1 := { s with loading := true, error := "" }
    match geocodePlace geo with
    | Except.error message =>
      { s1 with error := messageOr message "Search failed", loading := false, query := "" }
    | Except.ok place =>
      let displayName := displayNameOf place
      let s2 := { s1 with
        location := { name := displayName, lat := place.latitude, lon := place.longitude } }
      let s3 := fetchWeather s2 displayName resp
      { s3 with loading := false, query := "" }

/-- The function `toggleUnits` (line 181). -/
def toggleUnits (s : State) : State :=
  { s with units := if s.units = Units.metric then Units.imperial else Units.metric }

/-- The effect on `[units]` (lines 156-159): a forecast fetch for the stored location. -/
def unitsEffect (s : State) (resp : ForecastResponse) : State :=
  fetchWeather s s.location.name resp

/-- The unit toggle as the widget runs it: `toggleUnits`, then the effect on `[units]`. -/
def toggleUnitsWithEffect (s : State) (resp : ForecastResponse) : State :=
  unitsEffect (toggleUnits s) resp

/-- The `onChange` of the input (line 225): `setQuery(e.target.value)`. -/
def setQuery (s : State) (value : String) : State :=
  { s with query := value }

/-- The call `setSelectedDayIndex(idx)` (lines 297 and 323). -/
def setSelectedDayIndex (s : State) (idx : Int) : State :=
  { s with selectedDayIndex := idx }

/-- Array indexing `daily[selectedDayIndex]`: absent outside the bounds. -/
def dailyAt (daily : List DailyRecord) (i : Int) : Option DailyRecord :=
  if i < 0 then none else daily.get? i.toNat

/-- The function `hourlyForSelectedDay` (lines 184-189). -/
def hourlyForSelectedDay (s : State) : List HourlyRecord :=
  if s.hourly.length = 0 then []
  else
    match dailyAt s.daily s.selectedDayIndex with
    | none => []
    | some day => s.hourly.filter fun h => startsWith h.time day.date

/-! ## Rendered values -/

/-- The expression `hourly[0]?.field ?? 0` of the render. -/
def firstHourlyOrZero (s : State) (field : HourlyRecord → JsVal) : JsVal :=
  ((s.hourly.head?.map field).getD JsVal.undefined).orElse (JsVal.num 0)

/-- The text of the current temperature (line 255); the "Feels Like" text (lines 264-269)
is the same expression. -/
def currentTempText (s : State) : String :=
  match s.current with
  | none => "—"
  | some c =>
    (toDisplayTemp s.units (c.tempC.orElse (firstHourlyOrZero s (fun h => h.tempC)))).text ++ "°"

/-- The text of the wind (line 280). -/
def windText (s : State) : String :=
  match s.current with
  | none => "—"
  | some c => toDisplayWind s.units (c.wind_mps.orElse (firstHourlyOrZero s (fun h => h.wind)))

/-- The text of the precipitation (line 285). -/
def precipText (s : State) : String :=
  match s.hourly.head? with
  | none => "—"
  | some h => toDisplayPrecip s.units (h.precipitation.orElse (JsVal.num 0))

/-- The entries of the daily panel (lines 293-311): the texts of the maximum and the minimum
of each rendered day. -/
def dailyTempTexts (s : State) : List (String × String) :=
  (s.daily.take 7).map fun d =>
    ((toDisplayTemp s.units d.maxC).text, (toDisplayTemp s.units d.minC).text)

/-- The temperatures of the hourly list (lines 338-346). -/
def hourlyTempTexts (s : State) : List String :=
  (hourlyForSelectedDay s).map fun h => (toDisplayTemp s.units h.tempC).text ++ "°"

/-! ## Outcomes and reachable states -/

/-- Whether the forecast request produced a payload. -/
def ForecastResponse.isOk : ForecastResponse → Bool
  | ForecastResponse.ok _ => true
  | _ => false

/-- Whether a search ends in one of the two `catch` blocks: `geocodePlace` throws, or it
returns a place and the forecast request that follows fails. -/
def searchErrors (geo : GeocodeResponse) (resp : ForecastResponse) : Bool :=
  match geocodePlace geo with
  | Except.error _ => true
  | Except.ok _ => !resp.isOk

/-- The location that `handleSearch` stores for a resolved place (line 170). -/
def locationOf (place : Place) : Location :=
  { name := displayNameOf place, lat := place.latitude, lon := place.longitude }

/-- The states of the widget: the initial state, then any sequence of the effect on `[units]`
(which also runs on mount), searches, unit toggles, edits of the query, and the day selections
that the rendered daily panel (its first seven entries) or the dropdown (one option per daily
entry) offers, with any answers of the two providers. -/
inductive Reachable : State → Prop where
  | initial : Reachable initialState
  | effect (s : State) (resp : ForecastResponse) :
      Reachable s → Reachable (unitsEffect s resp)
  | search (s : State) (geo : GeocodeResponse) (resp : ForecastResponse) :
      Reachable s → Reachable (handleSearch s geo resp)
  | toggle (s : State) (resp : ForecastResponse) :
      Reachable s → Reachable (toggleUnitsWithEffect s resp)
  | typed (s : State) (value : String) :
      Reachable s → Reachable (setQuery s value)
  | clickDay (s : State) (idx : Nat) :
      Reachable s → idx < (s.daily.take 7).length → Reachable (setSelectedDayIndex s idx)
  | chooseDay (s : State) (i : Nat) :
      Reachable s → i < s.daily.length → Reachable (setSelectedDayIndex s i)

/-! ## Concrete inputs -/

/-- A week of daily records in Celsius. -/
def weekDaily : List DailyRecord :=
  [ { date := "2025-08-05", maxC := JsVal.num 20, minC := JsVal.num 14,
      precipitationSum := JsVal.num 0, weathercode := JsVal.num 61 },
    { date := "2025-08-06", maxC := JsVal.num 21, minC := JsVal.num 15,
      precipitationSum := JsVal.num 1, weathercode := JsVal.num 61 },
    { date := "2025-08-07", maxC := JsVal.num 24, minC := JsVal.num 14,
      precipitationSum := JsVal.num 0, weathercode := JsVal.num 0 },
    { date := "2025-08-08", maxC := JsVal.num 25, minC := JsVal.num 13,
      precipitationSum := JsVal.num 0, weathercode := JsVal.num 2 },
    { date := "2025-08-09", maxC := JsVal.num 21, minC := JsVal.num 15,
      precipitationSum := JsVal.num 3, weathercode := JsVal.num 95 },
    { date := "2025-08-10", maxC := JsVal.num 25, minC := JsVal.num 16,
      precipitationSum := JsVal.num 2, weathercode := JsVal.num 61 },
    { date := "2025-08-11", maxC := JsVal.num 24, minC := JsVal.num 15,
      precipitationSum := JsVal.num 0, weathercode := JsVal.num 45 } ]

/-- An hourly record with the given time and temperature. -/
def hourAt (time : String) (temp : ℚ) : HourlyRecord :=
  { time := time, tempC := JsVal.num temp, humidity := JsVal.num 46,
    precipitation := JsVal.num 0, weathercode := JsVal.num 2, wind := JsVal.num 4 }

/-- Hourly records around the fourth day of `weekDaily`. -/
def weekHourly : List HourlyRecord :=
  [ hourAt "2025-08-05T12:00" 20, hourAt "2025-08-07T23:00" 15,
    hourAt "2025-08-08T00:00" 14, hourAt "2025-08-08T12:00" 25,
    hourAt "2025-08-08T23:00" 16, hourAt "2025-08-09T00:00" 15 ]

/-- A Metric state holding a week of records, with the fourth day selected. -/
def weekState : State :=
  { query := ""
    location := { name := "Berlin, Germany", lat := 52.52, lon := 13.405 }
    units := Units.metric
    selectedDayIndex := 3
    loading := false
    error := ""
    current := some { temperature := JsVal.num 20, windspeed := JsVal.num 18,
                      displayName := "Berlin, Germany", tempC := JsVal.num 20,
                      weathercode := JsVal.num 2, wind_mps := JsVal.num 5 }
    hourly := weekHourly
    daily := weekDaily }

/-- A payload as the provider sends it for `temperature_unit=fahrenheit`, `windspeed_unit=mph`:
68 °F now and in the one hourly entry, 77 °F / 59 °F for the one day. -/
def fahrenheitPayload : Payload :=
  { current_weather := some { temperature := JsVal.num 68, windspeed := JsVal.num 10,
                              weathercode := JsVal.num 0 }
    hourly := some { time := JsArr.arr ["2025-08-05T00:00"]
                     temperature_2m := JsArr.arr [JsVal.num 68]
                     relativehumidity_2m := JsArr.arr [JsVal.num 46]
                     precipitation := JsArr.arr [JsVal.num 0]
                     weathercode := JsArr.arr [JsVal.num 0]
                     windspeed_10m := JsArr.arr [JsVal.num 10] }
    daily := some { time := JsArr.arr ["2025-08-05"]
                    temperature_2m_max := JsArr.arr [JsVal.num 77]
                    temperature_2m_min := JsArr.arr [JsVal.num 59]
                    precipitation_sum := JsArr.arr [JsVal.num 0]
                    weathercode := JsArr.arr [JsVal.num 0] } }

/-- The state `weekState` under Imperial units. -/
def imperialState : State :=
  { weekState with units := Units.imperial }

/-- A geocoding result. -/
def paris : Place :=
  { name := "Paris", admin1 := some "Île-de-France", country := some "France",
    latitude := 48.85341, longitude := 2.3488 }

/-- The state `weekState` with the query "Paris" typed in. -/
def parisQueryState : State :=
  setQuery weekState "Paris"

/-- A payload as the provider sends it for `temperature_unit=celsius`, `windspeed_unit=kmh`:
seven days and six hours. -/
def weekPayload : Payload :=
  { current_weather := some { temperature := JsVal.num 20, windspeed := JsVal.num 18,
                              weathercode := JsVal.num 2 }
    hourly := some { time := JsArr.arr ["2025-08-05T12:00", "2025-08-07T23:00", "2025-08-08T00:00",
                                    "2025-08-08T12:00", "2025-08-08T23:00", "2025-08-09T00:00"]
                     temperature_2m := JsArr.arr [JsVal.num 20, JsVal.num 15, JsVal.num 14,
                                             JsVal.num 25, JsVal.num 16, JsVal.num 15]
                     relativehumidity_2m := JsArr.arr (List.replicate 6 (JsVal.num 46))
                     precipitation := JsArr.arr (List.replicate 6 (JsVal.num 0))
                     weathercode := JsArr.arr (List.replicate 6 (JsVal.num 2))
                     windspeed_10m := JsArr.arr (List.replicate 6 (JsVal.num 4)) }
    daily := some { time := JsArr.arr ["2025-08-05", "2025-08-06", "2025-08-07", "2025-08-08",
                                   "2025-08-09", "2025-08-10", "2025-08-11"]
                    temperature_2m_max := JsArr.arr [JsVal.num 20, JsVal.num 21, JsVal.num 24,
                                                JsVal.num 25, JsVal.num 21, JsVal.num 25,
                                                JsVal.num 24]
                    temperature_2m_min := JsArr.arr [JsVal.num 14, JsVal.num 15, JsVal.num 14,
                                                JsVal.num 13, JsVal.num 15, JsVal.num 16,
                                                JsVal.num 15]
                    precipitation_sum := JsArr.arr [JsVal.num 0, JsVal.num 1, JsVal.num 0,
                                               JsVal.num 0, JsVal.num 3, JsVal.num 2,
                                               JsVal.num 0]
                    weathercode := JsArr.arr [JsVal.num 61, JsVal.num 61, JsVal.num 0, JsVal.num 2,
                                         JsVal.num 95, JsVal.num 61, JsVal.num 45] } }

/-! ## Categories -/

/-- The icons returned by the eight category branches of `weatherCodeToEmoji`, in the order
of the branches (lines 41-48). -/
def categoryIcons : List String :=
  ["☀️", "⛅", "☁️", "🌫️", "🌧️", "🌧️", "❄️", "⛈️"]

/-- The icon returned by the last line of `weatherCodeToEmoji` (line 49). -/
def defaultIcon : String := "🌤️"

/-- The eight display categories named by the specification. -/
inductive Category where
  | clear
  | partlyCloudy
  | overcast
  | fog
  | drizzle
  | rain
  | snow
  | thunderstorm
  deriving DecidableEq, Repr

/-- The category of an integer code as the specification defines it: the code sets 0-1, 2, 3,
{45, 48}, {51, 53, 55, 56, 57}, {61, 63, 65, 66, 67}, {71, 73, 75, 77, 85, 86} and
{95, 96, 99}; `none` for a code in none of them. -/
def specCategory (z : Int) : Option Category :=
  if 0 ≤ z ∧ z ≤ 1 then some Category.clear
  else if z = 2 then some Category.partlyCloudy
  else if z = 3 then some Category.overcast
  else if z = 45 ∨ z = 48 then some Category.fog
  else if z = 51 ∨ z = 53 ∨ z = 55 ∨ z = 56 ∨ z = 57 then some Category.drizzle
  else if z = 61 ∨ z = 63 ∨ z = 65 ∨ z = 66 ∨ z = 67 then some Category.rain
  else if z = 71 ∨ z = 73 ∨ z = 75 ∨ z = 77 ∨ z = 85 ∨ z = 86 then some Category.snow
  else if z = 95 ∨ z = 96 ∨ z = 99 then some Category.thunderstorm
  else none

/-- The icon of the branch of `weatherCodeToEmoji` that handles a category. -/
def categoryIcon : Category → String
  | Category.clear => "☀️"
  | Category.partlyCloudy => "⛅"
  | Category.overcast => "☁️"
  | Category.fog => "🌫️"
  | Category.drizzle => "🌧️"
  | Category.rain => "🌧️"
  | Category.snow => "❄️"
  | Category.thunderstorm => "⛈️"

/-! ## Display name, panels and payloads with `null` -/

/-- The parts of a display name as the specification lists them: the place name, then the
admin region and the country when present (an empty string counts as absent). -/
def presentParts (place : Place) : List String :=
  place.name ::
    ((match place.admin1 with
      | some a => if a = "" then [] else [a]
      | none => [])
     ++
     (match place.country with
      | some c => if c = "" then [] else [c]
      | none => []))

/-- The test of the hourly list (line 335): `hourlyForSelectedDay().length === 0`, under which
the text "No hourly data" is rendered. -/
def showsNoHourlyData (s : State) : Bool :=
  decide ((hourlyForSelectedDay s).length = 0)

/-- The records that the daily panel renders (lines 290-312): none when `daily` is empty,
otherwise `daily.slice(0, 7)`. -/
def renderedDays (s : State) : List DailyRecord :=
  if s.daily.length = 0 then [] else s.daily.take 7

/-- A payload whose hourly group has JSON `null` in place of the `time` array. -/
def nullTimePayload : Payload :=
  { current_weather := none
    hourly := some { time := JsArr.null, temperature_2m := JsArr.absent,
                     relativehumidity_2m := JsArr.absent, precipitation := JsArr.absent,
                     weathercode := JsArr.absent, windspeed_10m := JsArr.absent }
    daily := none }

/-- Whether a property of the hourly group is JSON `null`. -/
def HourlyGroup.hasNull (g : HourlyGroup) : Bool :=
  g.time.isNull || g.temperature_2m.isNull || g.relativehumidity_2m.isNull ||
  g.precipitation.isNull || g.weathercode.isNull || g.windspeed_10m.isNull

/-- Whether a property of the daily group is JSON `null`. -/
def DailyGroup.hasNull (g : DailyGroup) : Bool :=
  g.time.isNull || g.temperature_2m_max.isNull || g.temperature_2m_min.isNull ||
  g.precipitation_sum.isNull || g.weathercode.isNull

/-- A daily record whose maximum is missing (`null` in the provider's array). -/
def gapDay : DailyRecord :=
  { date := "2025-08-05", maxC := JsVal.null, minC := JsVal.num 14,
    precipitationSum := JsVal.num 0, weathercode := JsVal.num 61 }

/-- The state `imperialState` with `gapDay` as its only daily record. -/
def gapState : State :=
  { imperialState with daily := [gapDay] }

end WeatherApp

/-! # Todo list

Shallow embedding of `src/src/components/todoapp/Todoapp.jsx`: the `useState` cells and the
ref `draggedIndex` are one record, and every handler is a function on it.
-/

namespace TodoApp

/-- A todo: `{ id, text, completed }`. -/
structure Todo where
  id : Nat
  text : String
  completed : Bool
  deriving DecidableEq, Repr

/-- The `filter` state: `"all" | "active" | "completed"`. -/
inductive Filter where
  | all
  | active
  | completed
  deriving DecidableEq, Repr

/-- The `theme` state: `"dark" | "light"`. -/
inductive Theme where
  | dark
  | light
  deriving DecidableEq, Repr

/-- The component state: the four `useState` cells and `draggedIndex.current`. -/
structure State where
  todos : List Todo
  text : String
  filter : Filter
  theme : Theme
  draggedIndex : Option Nat
  deriving DecidableEq, Repr

/-- The function `handleDragStart` (lines 57-61): `draggedIndex.current = index`. -/
def handleDragStart (s : State) (index : Nat) : State :=
  { s with draggedIndex := some index }

/-- The function `handleDragOver` (lines 62-76).  `copy.splice(dragFrom, 1)` removes the item at
`dragFrom` and `copy.splice(dragTo, 0, moved)` inserts it at `dragTo`, a position past the end
being the end.  When `dragFrom` is past the end of the list nothing is removed and `moved` is
`undefined`; the result then holds `undefined` and is not a list of todos: `none`. -/
def handleDragOver (s : State) (index : Nat) : Option State :=
  match s.draggedIndex with
  | none => some s
  | some dragFrom =>
    if dragFrom = index then some s
    else
      match s.todos.get? dragFrom with
      | none => none
      | some moved =>
        let copy := s.todos.eraseIdx dragFrom
        some { s with
          todos := copy.insertIdx (min index copy.length) moved
          draggedIndex := some index }

/-- The function `handleDragEnd` (lines 77-80): `draggedIndex.current = null`. -/
def handleDragEnd (s : State) : State :=
  { s with draggedIndex := none }

/-- Four todos, the first being dragged. -/
def dragExample : State :=
  { todos := [ { id := 1, text := "a", completed := false },
               { id := 2, text := "b", completed := true },
               { id := 3, text := "c", completed := false },
               { id := 4, text := "d", completed := false } ]
    text := ""
    filter := Filter.all
    theme := Theme.dark
    draggedIndex := some 0 }

/-- The ECMAScript white space and line terminator code points, which `trim` removes. -/
def jsIsWhiteSpace (c : Char) : Bool :=
  c.toNat = 0x09 || c.toNat = 0x0A || c.toNat = 0x0B || c.toNat = 0x0C || c.toNat = 0x0D ||
  c.toNat = 0x20 || c.toNat = 0xA0 || c.toNat = 0x1680 ||
  (0x2000 ≤ c.toNat && c.toNat ≤ 0x200A) ||
  c.toNat = 0x2028 || c.toNat = 0x2029 || c.toNat = 0x202F || c.toNat = 0x205F ||
  c.toNat = 0x3000 || c.toNat = 0xFEFF

/-- The method `trim` on the characters of a string: white space is removed from both
ends. -/
def trimChars (cs : List Char) : List Char :=
  ((cs.dropWhile jsIsWhiteSpace).reverse.dropWhile jsIsWhiteSpace).reverse

/-- The string method `text.trim()`. -/
def jsTrim (text : String) : String :=
  String.mk (trimChars text.toList)

/-- The function `addTodo` (lines 28-37); `now` is the value of `Date.now()`. -/
def addTodo (s : State) (now : Nat) : State :=
  let val := jsTrim s.text
  if val = "" then s
  else { s with todos := { id := now, text := val, completed := false } :: s.todos, text := "" }

/-- The function `toggleTodo` (lines 39-43). -/
def toggleTodo (s : State) (id : Nat) : State :=
  { s with todos := s.todos.map fun t => if t.id = id then { t with completed := !t.completed } else t }

/-- The function `deleteTodo` (lines 44-46). -/
def deleteTodo (s : State) (id : Nat) : State :=
  { s with todos := s.todos.filter fun t => t.id != id }

/-- The function `clearCompleted` (lines 47-49). -/
def clearCompleted (s : State) : State :=
  { s with todos := s.todos.filter fun t => !t.completed }

/-- The number before "items left" (line 171). -/
def itemsLeft (s : State) : Nat :=
  (s.todos.filter fun x => !x.completed).length

/-- The state `dragExample` with "  buy milk " typed into the input. -/
def typingExample : State :=
  { dragExample with text := "  buy milk " }

end TodoApp

/-! # Multi-step subscription form

Shallow embedding of `src/src/components/Intercomapps/Intercomapp.jsx`.
-/

namespace MultiStepForm

/-- The `billing` field: `"monthly" | "yearly"`. -/
inductive Billing where
  | monthly
  | yearly
  deriving DecidableEq, Repr

/-- A price object `{ monthly, yearly }`. -/
structure Price where
  monthly : Nat
  yearly : Nat
  deriving DecidableEq, Repr

/-- The lookup `price[formData.billing]`. -/
def Price.get (p : Price) (billing : Billing) : Nat :=
  match billing with
  | Billing.monthly => p.monthly
  | Billing.yearly => p.yearly

/-- The object `plans` (lines 16-20), as its key-value pairs in key order. -/
def plans : List (String × Price) :=
  [ ("arcade", { monthly := 9, yearly := 90 }),
    ("advanced", { monthly := 12, yearly := 120 }),
    ("pro", { monthly := 15, yearly := 150 }) ]

/-- An element of `addonsList`. -/
structure Addon where
  id : String
  title : String
  price : Price
  deriving DecidableEq, Repr

/-- The array `addonsList` (lines 22-26). -/
def addonsList : List Addon :=
  [ { id := "online", title := "Online service", price := { monthly := 1, yearly := 10 } },
    { id := "storage", title := "Larger storage", price := { monthly := 2, yearly := 20 } },
    { id := "custom", title := "Customizable profile", price := { monthly := 2, yearly := 20 } } ]

/-- The `formData` state; `email` is absent until the e-mail input is edited. -/
structure FormData where
  name : String
  email : Option String
  phone : String
  plan : String
  billing : Billing
  addons : List String
  deriving DecidableEq, Repr

/-- The initial `formData` (lines 7-14). -/
def initialFormData : FormData :=
  { name := "", email := none, phone := "", plan := "arcade", billing := Billing.monthly,
    addons := [] }

/-- The call `addonsList.find((a) => a.id === id)`. -/
def findAddon (id : String) : Option Addon :=
  addonsList.find? (fun a => a.id == id)

/-- The `reduce` of the total (lines 183-186), from the accumulator `sum`; `none` when `find`
returns `undefined` for an id, whose `.price` then throws. -/
def addonsReduce (billing : Billing) (ids : List String) (sum : Nat) : Option Nat :=
  match ids with
  | [] => some sum
  | id :: rest =>
    match findAddon id with
    | none => none
    | some a => addonsReduce billing rest (sum + a.price.get billing)

/-- The total of the summary (lines 181-187); `none` when `plans[formData.plan]` is `undefined`
or an add-on id is unknown, where the expression throws. -/
def total (f : FormData) : Option Nat :=
  match plans.lookup f.plan with
  | none => none
  | some p =>
    match addonsReduce f.billing f.addons 0 with
    | none => none
    | some sum => some (p.get f.billing + sum)

/-- The price of a selected add-on for a billing period, 0 for an id not in `addonsList`. -/
def addonPrice (billing : Billing) (id : String) : Nat :=
  match findAddon id with
  | some a => a.price.get billing
  | none => 0

/-- The price of a plan for a billing period, 0 for a key not in `plans`. -/
def planPrice (billing : Billing) (plan : String) : Nat :=
  match plans.lookup plan with
  | some p => p.get billing
  | none => 0

/-- The form with the "pro" plan and two add-ons selected. -/
def proForm : FormData :=
  { initialFormData with plan := "pro", addons := ["online", "custom"] }

/-- The function `toggleAddon` (lines 28-35). -/
def toggleAddon (f : FormData) (id : String) : FormData :=
  { f with addons :=
      if f.addons.contains id then f.addons.filter (fun a => a != id) else f.addons ++ [id] }

/-- The `onChange` of the name input (line 66). -/
def setName (f : FormData) (value : String) : FormData :=
  { f with name := value }

/-- The `onChange` of the e-mail input (line 75). -/
def setEmail (f : FormData) (value : String) : FormData :=
  { f with email := some value }

/-- The `onChange` of the phone input (line 84). -/
def setPhone (f : FormData) (value : String) : FormData :=
  { f with phone := value }

/-- The `onClick` of a plan card (line 102). -/
def setPlan (f : FormData) (p : String) : FormData :=
  { f with plan := p }

/-- The `onClick` of the billing switch (lines 115-117). -/
def toggleBilling (f : FormData) : FormData :=
  { f with billing := if f.billing = Billing.monthly then Billing.yearly else Billing.monthly }

/-- The form data after any sequence of the handlers of the form, from the initial data:
`toggleAddon` with any id, the three inputs, a plan card of `plans`, the billing switch. -/
inductive FormReachable : FormData → Prop where
  | initial : FormReachable initialFormData
  | addon (f : FormData) (id : String) : FormReachable f → FormReachable (toggleAddon f id)
  | name (f : FormData) (value : String) : FormReachable f → FormReachable (setName f value)
  | email (f : FormData) (value : String) : FormReachable f → FormReachable (setEmail f value)
  | phone (f : FormData) (value : String) : FormReachable f → FormReachable (setPhone f value)
  | plan (f : FormData) (p : String) : FormReachable f → FormReachable (setPlan f p)
  | billing (f : FormData) : FormReachable f → FormReachable (toggleBilling f)

/-- The function `next` (line 37). -/
def next (step : Int) : Int := step + 1

/-- The function `back` (line 38). -/
def back (step : Int) : Int := step - 1

/-- The buttons of the form that change `step`. -/
inductive Button where
  | nextStep
  | goBack
  | confirm
  deriving DecidableEq, Repr

/-- The step buttons that the render shows for a value of `step` (lines 55-202): one block per
`step === n` test, the blocks of steps 1 to 4 holding buttons. -/
def offered (step : Int) : List Button :=
  (if step = 1 then [Button.nextStep] else []) ++
  (if step = 2 then [Button.goBack, Button.nextStep] else []) ++
  (if step = 3 then [Button.goBack, Button.nextStep] else []) ++
  (if step = 4 then [Button.goBack, Button.confirm] else []) ++
  (if step = 5 then [] else [])

/-- The `onClick` of a step button: `next`, `back`, or `setStep(5)` (line 193). -/
def press (step : Int) (b : Button) : Int :=
  match b with
  | Button.nextStep => next step
  | Button.goBack => back step
  | Button.confirm => 5

/-- The values of `step` from the initial 1 through the buttons that the render offers. -/
inductive StepReachable : Int → Prop where
  | start : StepReachable 1
  | click (step : Int) (b : Button) :
      StepReachable step → b ∈ offered step → StepReachable (press step b)

end MultiStepForm

/-! # Theorems -/

namespace WeatherApp

/-! ## Helper lemmas -/

theorem messageOr_ne_empty (message fallback : String) (h : fallback ≠ "") :
    messageOr message fallback ≠ "" := by
  unfold messageOr
  split
  · exact h
  · assumption

theorem fetchWeather_location (s : State) (displayName : String) (resp : ForecastResponse) :
    (fetchWeather s displayName resp).location = s.location ∧
    (fetchWeather s displayName resp).units = s.units ∧
    (fetchWeather s displayName resp).query = s.query := by
  cases resp <;> simp [fetchWeather]

theorem fetchWeather_failure (s : State) (displayName : String) (resp : ForecastResponse)
    (h : resp.isOk = false) :
    (fetchWeather s displayName resp).selectedDayIndex = s.selectedDayIndex ∧
    (fetchWeather s displayName resp).current = s.current ∧
    (fetchWeather s displayName resp).hourly = s.hourly ∧
    (fetchWeather s displayName resp).daily = s.daily ∧
    (fetchWeather s displayName resp).error ≠ "" := by
  cases resp with
  | failed message =>
    simp only [fetchWeather, true_and]
    exact messageOr_ne_empty _ _ (by decide)
  | notOk =>
    simp only [fetchWeather, true_and]
    exact messageOr_ne_empty _ _ (by decide)
  | ok data => simp [ForecastResponse.isOk] at h

/-! ## Claims -/

/-- C3 (counterexample): the search for "Paris" from `parisQueryState`, with a geocoding
answer that resolves and a forecast request that fails, ends with the error set and the
location replaced by the resolved place. -/
theorem handleSearch_forecast_failure_moves_location :
    searchErrors (GeocodeResponse.ok (some [paris])) ForecastResponse.notOk = true ∧
    (handleSearch parisQueryState (GeocodeResponse.ok (some [paris])) ForecastResponse.notOk).error
      = "Weather API error" ∧
    (handleSearch parisQueryState (GeocodeResponse.ok (some [paris])) ForecastResponse.notOk).location
      ≠ parisQueryState.location := by
  refine ⟨by decide, by decide, by decide⟩

/-- C3 (amended): for every search with a non-empty query in which an error occurs, the
stored current, hourly and daily records, the selected index and the units after
`handleSearch` equal their values before it, the error message is non-empty, loading is off
and the query is cleared; the location is unchanged when geocoding fails, and is the resolved
place when geocoding succeeds and the forecast fetch fails. -/
theorem handleSearch_error_frame (s : State) (geo : GeocodeResponse) (resp : ForecastResponse)
    (hq : s.query ≠ "") (herr : searchErrors geo resp = true) :
    (handleSearch s geo resp).current = s.current ∧
    (handleSearch s geo resp).hourly = s.hourly ∧
    (handleSearch s geo resp).daily = s.daily ∧
    (handleSearch s geo resp).selectedDayIndex = s.selectedDayIndex ∧
    (handleSearch s geo resp).units = s.units ∧
    (handleSearch s geo resp).error ≠ "" ∧
    (handleSearch s geo resp).loading = false ∧
    (handleSearch s geo resp).query = "" ∧
    (handleSearch s geo resp).location =
      (match geocodePlace geo with
       | Except.error _ => s.location
       | Except.ok place => locationOf place) := by
  unfold searchErrors at herr
  unfold handleSearch
  rw [if_neg hq]
  cases hg : geocodePlace geo with
  | error message =>
    simp only [true_and, and_true]
    exact messageOr_ne_empty _ _ (by decide)
  | ok place =>
    rw [hg] at herr
    have hfail : resp.isOk = false := by simpa using herr
    have hf := fetchWeather_failure
      { s with loading := true, error := "", location :=
          { name := displayNameOf place, lat := place.latitude, lon := place.longitude } }
      (displayNameOf place) resp hfail
    have hl := fetchWeather_location
      { s with loading := true, error := "", location :=
          { name := displayNameOf place, lat := place.latitude, lon := place.longitude } }
      (displayNameOf place) resp
    simp only [true_and, and_true]
    exact ⟨hf.2.1, hf.2.2.1, hf.2.2.2.1, hf.1, hl.2.1, hf.2.2.2.2, hl.1⟩

/-- C3 (witness): the search for "Paris" whose geocoding answer has no results. -/
theorem handleSearch_error_frame_witness :
    parisQueryState.query ≠ "" ∧
    searchErrors (GeocodeResponse.ok (some [])) ForecastResponse.notOk = true ∧
    (handleSearch parisQueryState (GeocodeResponse.ok (some [])) ForecastResponse.notOk).location
      = parisQueryState.location ∧
    (handleSearch parisQueryState (GeocodeResponse.ok (some [])) ForecastResponse.notOk).daily
      = weekDaily :=
  ⟨by decide, by decide,
   (handleSearch_error_frame parisQueryState (GeocodeResponse.ok (some [])) ForecastResponse.notOk
      (by decide) (by decide)).2.2.2.2.2.2.2.2,
   (handleSearch_error_frame parisQueryState (GeocodeResponse.ok (some [])) ForecastResponse.notOk
      (by decide) (by decide)).2.2.1⟩

theorem weatherCodeToEmoji_of_specCategory (z : Int) (c : Category)
    (h : specCategory z = some c) : weatherCodeToEmoji (JsVal.num z) = categoryIcon c := by
  unfold specCategory at h
  split_ifs at h with h1 h2 h3 h4 h5 h6 h7 h8
  · have hz : z = 0 ∨ z = 1 := by omega
    cases h
    rcases hz with rfl | rfl <;> decide
  · cases h; subst h2; decide
  · cases h; subst h3; decide
  · cases h; rcases h4 with rfl | rfl <;> decide
  · cases h; rcases h5 with rfl | rfl | rfl | rfl | rfl <;> decide
  · cases h; rcases h6 with rfl | rfl | rfl | rfl | rfl <;> decide
  · cases h; rcases h7 with rfl | rfl | rfl | rfl | rfl | rfl <;> decide
  · cases h; rcases h8 with rfl | rfl | rfl <;> decide

/-- C5: when `daily[selectedDayIndex]` is present, `hourlyForSelectedDay` is the filter of the
stored hourly sequence by "time starts with that day's date": an order-preserving sublist
holding exactly the stored records of that day. -/
theorem hourlyForSelectedDay_eq_filter (s : State) (day : DailyRecord)
    (hday : dailyAt s.daily s.selectedDayIndex = some day) :
    hourlyForSelectedDay s = s.hourly.filter (fun h => startsWith h.time day.date) ∧
    (hourlyForSelectedDay s).Sublist s.hourly ∧
    (∀ h : HourlyRecord,
      h ∈ hourlyForSelectedDay s ↔ h ∈ s.hourly ∧ startsWith h.time day.date = true) := by
  have heq : hourlyForSelectedDay s = s.hourly.filter (fun h => startsWith h.time day.date) := by
    unfold hourlyForSelectedDay
    rw [hday]
    split
    · rename_i h0
      rw [List.length_eq_zero.mp h0]
      rfl
    · rfl
  refine ⟨heq, ?_, ?_⟩
  · rw [heq]
    exact List.filter_sublist _
  · intro h
    rw [heq, List.mem_filter]

/-- C5 (witness): seven daily entries, index 3 selected: the result is the three stored hours
of `daily[3].date`, in stored order. -/
theorem hourlyForSelectedDay_eq_filter_witness :
    weekState.daily.length = 7 ∧ weekState.selectedDayIndex = 3 ∧
    dailyAt weekState.daily weekState.selectedDayIndex
      = some { date := "2025-08-08", maxC := JsVal.num 25, minC := JsVal.num 13,
               precipitationSum := JsVal.num 0, weathercode := JsVal.num 2 } ∧
    hourlyForSelectedDay weekState
      = [hourAt "2025-08-08T00:00" 14, hourAt "2025-08-08T12:00" 25,
         hourAt "2025-08-08T23:00" 16] :=
  ⟨by decide, by decide, by decide,
   (hourlyForSelectedDay_eq_filter weekState
      { date := "2025-08-08", maxC := JsVal.num 25, minC := JsVal.num 13,
        precipitationSum := JsVal.num 0, weathercode := JsVal.num 2 } (by decide)).1.trans
     (by decide)⟩

/-- C7: `weatherCodeToEmoji` returns, for every value and so for every integer code (those of
`[-10, 110]` among them), one of the icons of its eight category branches or the default
icon. -/
theorem weatherCodeToEmoji_total :
    (∀ code : JsVal, weatherCodeToEmoji code ∈ categoryIcons ∨ weatherCodeToEmoji code = defaultIcon) ∧
    (∀ z : Int,
      weatherCodeToEmoji (JsVal.num z) ∈ categoryIcons ∨
        weatherCodeToEmoji (JsVal.num z) = defaultIcon) := by
  have h : ∀ code : JsVal,
      weatherCodeToEmoji code ∈ categoryIcons ∨ weatherCodeToEmoji code = defaultIcon := by
    intro code
    unfold weatherCodeToEmoji
    split_ifs <;> simp [categoryIcons, defaultIcon]
  exact ⟨h, fun z => h _⟩

/-- C8 (counterexample): the drizzle code 51 and the rain code 61 produce the same icon. -/
theorem weatherCodeToEmoji_drizzle_eq_rain :
    specCategory 51 = some Category.drizzle ∧ specCategory 61 = some Category.rain ∧
    weatherCodeToEmoji (JsVal.num 51) = weatherCodeToEmoji (JsVal.num 61) := by
  refine ⟨by decide, by decide, by decide⟩

/-- C8 (amended): for integer codes `a` and `b` of the eight categories, the icons are equal
exactly when the categories are equal or are drizzle and rain: these two share one icon, and
every other pair of different categories has different icons. -/
theorem weatherCodeToEmoji_eq_iff (a b : Int) (ca cb : Category)
    (ha : specCategory a = some ca) (hb : specCategory b = some cb) :
    weatherCodeToEmoji (JsVal.num a) = weatherCodeToEmoji (JsVal.num b) ↔
      (ca = cb ∨ (ca = Category.drizzle ∧ cb = Category.rain) ∨
        (ca = Category.rain ∧ cb = Category.drizzle)) := by
  rw [weatherCodeToEmoji_of_specCategory a ca ha, weatherCodeToEmoji_of_specCategory b cb hb]
  cases ca <;> cases cb <;> decide

/-- C8 (witness): fog (45) and snow (71) have different icons. -/
theorem weatherCodeToEmoji_eq_iff_witness :
    specCategory 45 = some Category.fog ∧ specCategory 71 = some Category.snow ∧
    weatherCodeToEmoji (JsVal.num (45 : Int)) ≠ weatherCodeToEmoji (JsVal.num (71 : Int)) :=
  ⟨by decide, by decide, fun h =>
    absurd ((weatherCodeToEmoji_eq_iff 45 71 Category.fog Category.snow (by decide) (by decide)).mp h)
      (by decide)⟩


theorem toggleUnits_toggleUnits (s : State) : toggleUnits (toggleUnits s) = s := by
  cases s with
  | mk query location units selectedDayIndex loading error current hourly daily =>
    cases units <;> simp [toggleUnits]


/-- C11: for a successful geocoding response `geocodePlace` throws "Place not found" exactly
when `results` is absent or empty, and otherwise returns the first element of `results`
unchanged; inside `handleSearch` (non-empty query) that failure sets the error to
"Place not found" and leaves the location unchanged. -/
theorem geocodePlace_not_found (s : State) (resp : ForecastResponse) (hq : s.query ≠ "") :
    (∀ results : Option (List Place),
      geocodePlace (GeocodeResponse.ok results) = Except.error "Place not found" ↔
        (results = none ∨ results = some [])) ∧
    (∀ (place : Place) (rest : List Place),
      geocodePlace (GeocodeResponse.ok (some (place :: rest))) = Except.ok place) ∧
    (handleSearch s (GeocodeResponse.ok none) resp).error = "Place not found" ∧
    (handleSearch s (GeocodeResponse.ok none) resp).location = s.location ∧
    (handleSearch s (GeocodeResponse.ok (some [])) resp).error = "Place not found" ∧
    (handleSearch s (GeocodeResponse.ok (some [])) resp).location = s.location := by
  refine ⟨?_, ?_, ?_, ?_, ?_, ?_⟩
  · intro results
    cases results with
    | none => simp [geocodePlace]
    | some l =>
      cases l with
      | nil => simp [geocodePlace]
      | cons p rest => simp [geocodePlace]
  · intro place rest
    rfl
  all_goals simp [handleSearch, hq, geocodePlace, messageOr]

/-- C11 (witness): the search for "Paris" answered with an empty `results` list. -/
theorem geocodePlace_not_found_witness :
    parisQueryState.query ≠ "" ∧
    (handleSearch parisQueryState (GeocodeResponse.ok (some [])) ForecastResponse.notOk).error
      = "Place not found" ∧
    (handleSearch parisQueryState (GeocodeResponse.ok (some [])) ForecastResponse.notOk).location
      = parisQueryState.location :=
  ⟨by decide,
   (geocodePlace_not_found parisQueryState ForecastResponse.notOk (by decide)).2.2.2.2.1,
   (geocodePlace_not_found parisQueryState ForecastResponse.notOk (by decide)).2.2.2.2.2⟩

/-- C12: the display name built by `handleSearch` is the present parts among name, admin
region and country, in that order, joined by ", "; the name is the first part and every part
after it is non-empty, so an absent or empty region or country adds neither text nor a
separator. -/
theorem displayNameOf_eq_join (place : Place) :
    displayNameOf place = ", ".intercalate (presentParts place) ∧
    (presentParts place).head? = some place.name ∧
    (presentParts place).tail.all (fun part => decide (part ≠ "")) = true ∧
    displayNameOf paris = "Paris, Île-de-France, France" ∧
    displayNameOf { paris with admin1 := none } = "Paris, France" ∧
    displayNameOf { paris with admin1 := some "", country := none } = "Paris" := by
  refine ⟨?_, rfl, ?_, by decide, by decide, by decide⟩
  · unfold displayNameOf presentParts
    cases place.admin1 <;> cases place.country <;>
      simp [String.intercalate, String.intercalate.go] <;>
      split_ifs <;> simp [String.intercalate, String.intercalate.go, String.append_assoc]
  · unfold presentParts
    cases place.admin1 <;> cases place.country <;> simp


theorem mathRound_intCast (z : Int) : mathRound (z : ℚ) = z := by
  unfold mathRound
  rw [Int.floor_eq_iff]
  constructor
  · linarith
  · linarith

theorem mathRound_zero : mathRound 0 = 0 := by
  have h := mathRound_intCast 0
  simpa using h

theorem mathRound_thirtyTwo : mathRound (celsiusToFahrenheit 0) = 32 := by
  have h := mathRound_intCast 32
  have e : celsiusToFahrenheit 0 = ((32 : Int) : ℚ) := by
    unfold celsiusToFahrenheit; norm_num
  rw [e]; exact h

theorem dailyAt_eq_none_of_out_of_bounds (daily : List DailyRecord) (i : Int)
    (h : i < 0 ∨ (daily.length : Int) ≤ i) : dailyAt daily i = none := by
  unfold dailyAt
  split
  · rfl
  · rename_i hneg
    rw [List.get?_eq_none]
    omega

/-- C15: for every integer `selectedDayIndex`, `hourlyForSelectedDay` returns the empty list,
and the hourly list renders "No hourly data", whenever the hourly sequence is empty or the
index is outside the bounds of the daily sequence. -/
theorem hourlyForSelectedDay_empty (s : State)
    (h : s.hourly = [] ∨ s.selectedDayIndex < 0 ∨ (s.daily.length : Int) ≤ s.selectedDayIndex) :
    hourlyForSelectedDay s = [] ∧ showsNoHourlyData s = true := by
  have he : hourlyForSelectedDay s = [] := by
    unfold hourlyForSelectedDay
    rcases h with h0 | hout
    · simp [h0]
    · rw [dailyAt_eq_none_of_out_of_bounds s.daily s.selectedDayIndex hout]
      split <;> rfl
  exact ⟨he, by simp [showsNoHourlyData, he]⟩

/-- C15 (witness): `weekState` with index 7, one past its seven daily entries. -/
theorem hourlyForSelectedDay_empty_witness :
    (setSelectedDayIndex weekState 7).hourly ≠ [] ∧
    ((setSelectedDayIndex weekState 7).daily.length : Int)
      ≤ (setSelectedDayIndex weekState 7).selectedDayIndex ∧
    hourlyForSelectedDay (setSelectedDayIndex weekState 7) = [] ∧
    showsNoHourlyData (setSelectedDayIndex weekState 7) = true :=
  ⟨by decide, by decide,
   hourlyForSelectedDay_empty (setSelectedDayIndex weekState 7) (Or.inr (Or.inr (by decide)))⟩

/-- C16: the daily panel renders the first `min(7, len(daily))` records of the daily sequence,
in sequence order, and a click on the i-th rendered entry sets `selectedDayIndex` to `i` and
leaves units, location, query and the stored records unchanged. -/
theorem renderedDays_take (s : State) (i : Nat) :
    renderedDays s = s.daily.take (min 7 s.daily.length) ∧
    (renderedDays s).length = min 7 s.daily.length ∧
    renderedDays s <+: s.daily ∧
    (renderedDays s).get? i = (if i < 7 then s.daily.get? i else none) ∧
    (setSelectedDayIndex s i).selectedDayIndex = i ∧
    setSelectedDayIndex s i = { s with selectedDayIndex := i } ∧
    (setSelectedDayIndex s i).units = s.units ∧
    (setSelectedDayIndex s i).location = s.location ∧
    (setSelectedDayIndex s i).current = s.current ∧
    (setSelectedDayIndex s i).hourly = s.hourly ∧
    (setSelectedDayIndex s i).daily = s.daily := by
  have h7 : renderedDays s = s.daily.take 7 := by
    unfold renderedDays
    split
    · rename_i h0
      rw [List.length_eq_zero.mp h0]
      rfl
    · rfl
  refine ⟨?_, ?_, ?_, ?_, rfl, rfl, rfl, rfl, rfl, rfl, rfl⟩
  · rw [h7, ← List.take_take, List.take_length]
  · rw [h7, List.length_take]
  · rw [h7]
    exact List.take_prefix 7 s.daily
  · rw [h7, List.get?_eq_getElem?, List.getElem?_take]
    split <;> simp

/-- C17: for every integer code, `weatherCodeToEmoji` returns the default icon when the code is
in none of the defined sets and the icon of the set's category when it is in one, and no
category icon is the default icon. -/
theorem weatherCodeToEmoji_default (z : Int) :
    weatherCodeToEmoji (JsVal.num z)
      = (match specCategory z with
         | some c => categoryIcon c
         | none => defaultIcon) ∧
    (∀ c : Category, categoryIcon c ≠ defaultIcon) := by
  constructor
  · cases hc : specCategory z with
    | some c => exact weatherCodeToEmoji_of_specCategory z c hc
    | none =>
      unfold specCategory at hc
      split_ifs at hc with h1 h2 h3 h4 h5 h6 h7 h8
      have c1 : codeBetween 0 1 (JsVal.num z) = false := by
        simp only [codeBetween, JsVal.toNumber, Bool.and_eq_false_imp, decide_eq_true_eq,
          decide_eq_false_iff_not]
        intro h0
        have : (0 : Int) ≤ z := by exact_mod_cast h0
        intro h1q
        have : z ≤ 1 := by exact_mod_cast h1q
        omega
      have ci : ∀ k : Int, z ≠ k → ((z : ℚ) = (k : ℚ)) = False := by
        intro k hk
        simp only [eq_iff_iff, iff_false]
        exact_mod_cast hk
      have e2 := ci 2 h2
      have e3 := ci 3 h3
      simp only [not_or] at h4 h5 h6 h7 h8
      have := ci 45 h4.1; have := ci 48 h4.2
      have := ci 51 h5.1; have := ci 53 h5.2.1; have := ci 55 h5.2.2.1
      have := ci 56 h5.2.2.2.1; have := ci 57 h5.2.2.2.2
      have := ci 61 h6.1; have := ci 63 h6.2.1; have := ci 65 h6.2.2.1
      have := ci 66 h6.2.2.2.1; have := ci 67 h6.2.2.2.2
      have := ci 71 h7.1; have := ci 73 h7.2.1; have := ci 75 h7.2.2.1
      have := ci 77 h7.2.2.2.1; have := ci 85 h7.2.2.2.2.1; have := ci 86 h7.2.2.2.2.2
      have := ci 95 h8.1; have := ci 96 h8.2.1; have := ci 99 h8.2.2
      simp_all [weatherCodeToEmoji, codeIs, includesCode, defaultIcon]
  · intro c
    cases c <;> decide

/-- C18 (the code at the failing input): a `null` value is shown as "-" only by the Metric
temperature and precipitation; in Imperial `toDisplayTemp(null)` is 32 and
`toDisplayPrecip(null)` is "0 in", `toDisplayWind(null)` is "0 km/h" and "0 mph", and the daily
panel shows "32" for a missing maximum under Imperial units. -/
theorem toDisplay_null_is_number :
    toDisplayTemp Units.metric JsVal.null = Rounded.dash ∧
    toDisplayTemp Units.imperial JsVal.null = Rounded.int 32 ∧
    (toDisplayTemp Units.imperial JsVal.null).text = "32" ∧
    toDisplayPrecip Units.metric JsVal.null = "- mm" ∧
    toDisplayPrecip Units.imperial JsVal.null = "0 in" ∧
    toDisplayWind Units.metric JsVal.null = "0 km/h" ∧
    toDisplayWind Units.imperial JsVal.null = "0 mph" ∧
    dailyTempTexts gapState = [("32", "57")] := by
  have r0k : mathRound (mpsToKmh 0) = 0 := by
    have e : mpsToKmh 0 = 0 := by unfold mpsToKmh; norm_num
    rw [e]; exact mathRound_zero
  have r0m : mathRound (mpsToMph 0) = 0 := by
    have e : mpsToMph 0 = 0 := by unfold mpsToMph; norm_num
    rw [e]; exact mathRound_zero
  have r0i : mathRound (mmToInches 0) = 0 := by
    have e : mmToInches 0 = 0 := by unfold mmToInches; norm_num
    rw [e]; exact mathRound_zero
  have r57 : mathRound (celsiusToFahrenheit 14) = 57 := by
    simp [mathRound, celsiusToFahrenheit, Int.floor_eq_iff]; norm_num
  have t32 : toDisplayTemp Units.imperial JsVal.null = Rounded.int 32 := by
    show Rounded.int (mathRound (celsiusToFahrenheit 0)) = Rounded.int 32
    rw [mathRound_thirtyTwo]
  have t57 : toDisplayTemp Units.imperial (JsVal.num 14) = Rounded.int 57 := by
    show Rounded.int (mathRound (celsiusToFahrenheit 14)) = Rounded.int 57
    rw [r57]
  refine ⟨rfl, t32, ?_, rfl, ?_, ?_, ?_, ?_⟩
  · rw [t32]; decide
  · show (toString (mathRound (mmToInches 0)) : String) ++ " in" = "0 in"
    rw [r0i]; decide
  · show (toString (mathRound (mpsToKmh 0)) : String) ++ " km/h" = "0 km/h"
    rw [r0k]; decide
  · show (toString (mathRound (mpsToMph 0)) : String) ++ " mph" = "0 mph"
    rw [r0m]; decide
  · show [((toDisplayTemp Units.imperial JsVal.null).text,
        (toDisplayTemp Units.imperial (JsVal.num 14)).text)] = [("32", "57")]
    rw [t32, t57]; decide

end WeatherApp

namespace TodoApp

theorem perm_cons_eraseIdx {α : Type} (l : List α) (i : Nat) (x : α) (h : l.get? i = some x) :
    (x :: l.eraseIdx i).Perm l := by
  induction l generalizing i with
  | nil => simp at h
  | cons a t ih =>
    cases i with
    | zero =>
      simp at h
      subst h
      simp
    | succ n =>
      simp at h
      have := ih n (by simpa using h)
      simp only [List.eraseIdx_cons_succ]
      exact (List.Perm.swap a x _).trans (List.Perm.cons a this)

/-- C19: with `0 ≤ dragFrom, dragTo < len(todos)` and `dragFrom ≠ dragTo`, `handleDragOver`
produces a permutation of the previous list of the same length, with the dragged item at index
`dragTo` and the other items in their previous relative order, and `draggedIndex` becomes
`dragTo`; when `dragFrom` is `null` or equals `dragTo` the state is unchanged. -/
theorem handleDragOver_reorder (s : State) (dragFrom dragTo : Nat)
    (hs : s.draggedIndex = some dragFrom)
    (hf : dragFrom < s.todos.length) (ht : dragTo < s.todos.length) (hne : dragFrom ≠ dragTo) :
    (∃ s2 : State, handleDragOver s dragTo = some s2 ∧
      s2.todos.Perm s.todos ∧
      s2.todos.length = s.todos.length ∧
      s2.todos.get? dragTo = s.todos.get? dragFrom ∧
      s2.todos.eraseIdx dragTo = s.todos.eraseIdx dragFrom ∧
      s2.draggedIndex = some dragTo ∧
      s2.text = s.text ∧ s2.filter = s.filter) ∧
    handleDragOver { s with draggedIndex := none } dragTo = some { s with draggedIndex := none } ∧
    handleDragOver { s with draggedIndex := some dragTo } dragTo
      = some { s with draggedIndex := some dragTo } := by
  refine ⟨?_, rfl, by simp [handleDragOver]⟩
  have hget : s.todos.get? dragFrom = some (s.todos.get ⟨dragFrom, hf⟩) := List.get?_eq_get hf
  have hlen : (s.todos.eraseIdx dragFrom).length = s.todos.length - 1 := by
    rw [List.length_eraseIdx, if_pos hf]
  have hle : dragTo ≤ (s.todos.eraseIdx dragFrom).length := by omega
  have hmin : min dragTo (s.todos.eraseIdx dragFrom).length = dragTo := Nat.min_eq_left hle
  refine ⟨{ s with
      todos := (s.todos.eraseIdx dragFrom).insertIdx dragTo (s.todos.get ⟨dragFrom, hf⟩)
      draggedIndex := some dragTo }, ?_, ?_, ?_, ?_, ?_, rfl, rfl, rfl⟩
  · simp only [handleDragOver, hs, if_neg hne, hget, hmin]
  · exact (List.perm_insertIdx _ _ hle).trans (perm_cons_eraseIdx s.todos dragFrom _ hget)
  · show ((s.todos.eraseIdx dragFrom).insertIdx dragTo _).length = s.todos.length
    rw [List.length_insertIdx _ _ hle, hlen]
    omega
  · show ((s.todos.eraseIdx dragFrom).insertIdx dragTo _).get? dragTo = s.todos.get? dragFrom
    rw [hget, List.get?_eq_getElem?]
    have hlt : dragTo < ((s.todos.eraseIdx dragFrom).insertIdx dragTo
        (s.todos.get ⟨dragFrom, hf⟩)).length := by
      rw [List.length_insertIdx _ _ hle]; omega
    rw [List.getElem?_eq_getElem hlt, List.getElem_insertIdx_self _ _ _ hle]
  · exact List.eraseIdx_insertIdx dragTo _

/-- C19 (witness): dragging the first of four todos over the third gives b, c, a, d. -/
theorem handleDragOver_reorder_witness :
    dragExample.draggedIndex = some 0 ∧
    (handleDragOver dragExample 2).map (fun s => s.todos.map (fun t => t.text))
      = some ["b", "c", "a", "d"] ∧
    (∃ s2 : State, handleDragOver dragExample 2 = some s2 ∧
      s2.todos.Perm dragExample.todos ∧
      s2.todos.length = dragExample.todos.length ∧
      s2.todos.get? 2 = dragExample.todos.get? 0 ∧
      s2.todos.eraseIdx 2 = dragExample.todos.eraseIdx 0 ∧
      s2.draggedIndex = some 2 ∧
      s2.text = dragExample.text ∧ s2.filter = dragExample.filter) :=
  ⟨by decide, by decide,
   (handleDragOver_reorder dragExample 0 2 (by decide) (by decide) (by decide) (by decide)).1⟩

end TodoApp

namespace MultiStepForm

theorem addonsReduce_eq (billing : Billing) (ids : List String) (sum : Nat)
    (h : ∀ id ∈ ids, id ∈ addonsList.map (fun a => a.id)) :
    addonsReduce billing ids sum = some (sum + (ids.map (addonPrice billing)).sum) := by
  induction ids generalizing sum with
  | nil => simp [addonsReduce]
  | cons id rest ih =>
    have hid : id ∈ addonsList.map (fun a => a.id) := h id (List.mem_cons_self _ _)
    have hrest : ∀ x ∈ rest, x ∈ addonsList.map (fun a => a.id) :=
      fun x hx => h x (List.mem_cons_of_mem _ hx)
    have hfind : ∃ a, findAddon id = some a := by
      simp only [addonsList, List.map_cons, List.map_nil, List.mem_cons, List.mem_singleton,
        List.not_mem_nil, or_false] at hid
      rcases hid with rfl | rfl | rfl <;> exact ⟨_, rfl⟩
    obtain ⟨a, ha⟩ := hfind
    simp only [addonsReduce, ha, List.map_cons, List.sum_cons, addonPrice]
    rw [ih _ hrest]
    simp [addonPrice, Nat.add_assoc]

theorem addonPrice_yearly (id : String) :
    addonPrice Billing.yearly id = 10 * addonPrice Billing.monthly id := by
  unfold addonPrice findAddon addonsList
  simp only [List.find?]
  split <;> rename_i h1
  · split at h1
    · cases h1; rfl
    · split at h1
      · cases h1; rfl
      · split at h1
        · cases h1; rfl
        · cases h1
  · rfl

theorem sum_addonPrice_yearly (ids : List String) :
    (ids.map (addonPrice Billing.yearly)).sum
      = 10 * (ids.map (addonPrice Billing.monthly)).sum := by
  induction ids with
  | nil => rfl
  | cons id rest ih =>
    simp only [List.map_cons, List.sum_cons, ih, addonPrice_yearly]
    ring

/-- C20: for a plan among arcade, advanced and pro and add-on ids drawn from `addonsList`, the
summary total is the plan price plus the sum of the selected add-ons' prices for the chosen
billing period, and the yearly total is 10 times the monthly total. -/
theorem total_eq (f : FormData)
    (hplan : f.plan ∈ plans.map (fun p => p.1))
    (hadd : ∀ id ∈ f.addons, id ∈ addonsList.map (fun a => a.id)) :
    total f = some (planPrice f.billing f.plan + (f.addons.map (addonPrice f.billing)).sum) ∧
    total { f with billing := Billing.yearly }
      = (total { f with billing := Billing.monthly }).map (fun t => 10 * t) ∧
    (total { f with billing := Billing.yearly }).isSome = true := by
  have hp : ∃ p, plans.lookup f.plan = some p ∧ p.yearly = 10 * p.monthly := by
    simp only [plans, List.map_cons, List.map_nil, List.mem_cons, List.mem_singleton,
      List.not_mem_nil, or_false] at hplan
    rcases hplan with h | h | h <;> rw [h] <;> exact ⟨_, rfl, rfl⟩
  obtain ⟨p, hp, hp10⟩ := hp
  have ht : ∀ b : Billing, total { f with billing := b }
      = some (p.get b + (f.addons.map (addonPrice b)).sum) := by
    intro b
    simp only [total, hp, addonsReduce_eq b f.addons 0 hadd, Nat.zero_add]
  refine ⟨?_, ?_, ?_⟩
  · have := ht f.billing
    simpa [planPrice, hp] using this
  · rw [ht, ht]
    simp only [Option.map_some', Price.get, sum_addonPrice_yearly, hp10]
    congr 1
    ring
  · rw [ht]; rfl

/-- C20 (witness): the "pro" plan with the online and custom add-ons: 18 a month, 180 a
year. -/
theorem total_eq_witness :
    proForm.plan ∈ plans.map (fun p => p.1) ∧
    total proForm = some 18 ∧
    total { proForm with billing := Billing.yearly } = some 180 ∧
    total { proForm with billing := Billing.yearly }
      = (total { proForm with billing := Billing.monthly }).map (fun t => 10 * t) :=
  ⟨by decide, by decide, by decide,
   (total_eq proForm (by decide) (by decide)).2.1⟩

end MultiStepForm

namespace MultiStepForm

theorem toggleAddon_of_mem (f : FormData) (id : String) (h : id ∈ f.addons) :
    (toggleAddon f id).addons = f.addons.filter (fun a => a != id) := by
  have hc : f.addons.contains id = true := by simpa using h
  simp only [toggleAddon, hc, if_true]

theorem toggleAddon_of_not_mem (f : FormData) (id : String) (h : id ∉ f.addons) :
    (toggleAddon f id).addons = f.addons ++ [id] := by
  have hc : f.addons.contains id = false := by simpa using h
  simp only [toggleAddon, hc, Bool.false_eq_true, if_false]

theorem toggleAddon_nodup (f : FormData) (id : String) (h : f.addons.Nodup) :
    (toggleAddon f id).addons.Nodup := by
  by_cases hm : id ∈ f.addons
  · rw [toggleAddon_of_mem f id hm]
    exact h.filter _
  · rw [toggleAddon_of_not_mem f id hm, List.nodup_append]
    refine ⟨h, List.nodup_singleton id, ?_⟩
    intro a ha hb
    rw [List.mem_singleton] at hb
    subst hb
    exact hm ha

theorem formReachable_nodup {f : FormData} (h : FormReachable f) : f.addons.Nodup := by
  induction h with
  | initial => exact List.nodup_nil
  | addon f id _ ih => exact toggleAddon_nodup f id ih
  | name f value _ ih => exact ih
  | email f value _ ih => exact ih
  | phone f value _ ih => exact ih
  | plan f p _ ih => exact ih
  | billing f _ ih => exact ih

/-- C21: after any sequence of `toggleAddon` calls (and of the other handlers of the form)
from the initial empty selection, the addons list has no id twice; a call
`toggleAddon(id)` flips the membership of `id`, keeps the membership of every other id, and
leaves every other form field unchanged. -/
theorem toggleAddon_spec (f : FormData) (id other : String)
    (h : FormReachable f) (hne : other ≠ id) :
    f.addons.Nodup ∧
    (toggleAddon f id).addons.Nodup ∧
    (id ∈ (toggleAddon f id).addons ↔ id ∉ f.addons) ∧
    (other ∈ (toggleAddon f id).addons ↔ other ∈ f.addons) ∧
    toggleAddon f id = { f with addons := (toggleAddon f id).addons } ∧
    (toggleAddon f id).name = f.name ∧
    (toggleAddon f id).email = f.email ∧
    (toggleAddon f id).phone = f.phone ∧
    (toggleAddon f id).plan = f.plan ∧
    (toggleAddon f id).billing = f.billing := by
  have hn := formReachable_nodup h
  refine ⟨hn, toggleAddon_nodup f id hn, ?_, ?_, rfl, rfl, rfl, rfl, rfl, rfl⟩
  · by_cases hm : id ∈ f.addons
    · rw [toggleAddon_of_mem f id hm]
      simp [List.mem_filter, hm]
    · rw [toggleAddon_of_not_mem f id hm]
      simp [hm]
  · by_cases hm : id ∈ f.addons
    · rw [toggleAddon_of_mem f id hm]
      simp [List.mem_filter, hne]
    · rw [toggleAddon_of_not_mem f id hm]
      simp [hne]

/-- C21 (witness): the selection after toggling "online" and "storage", toggled again on
"online" while "storage" stays selected. -/
theorem toggleAddon_spec_witness :
    (toggleAddon (toggleAddon initialFormData "online") "storage").addons
      = ["online", "storage"] ∧
    (toggleAddon (toggleAddon (toggleAddon initialFormData "online") "storage") "online").addons
      = ["storage"] ∧
    ("storage" ∈
        (toggleAddon (toggleAddon (toggleAddon initialFormData "online") "storage") "online").addons
      ↔ "storage" ∈ (toggleAddon (toggleAddon initialFormData "online") "storage").addons) :=
  ⟨by decide, by decide,
   (toggleAddon_spec (toggleAddon (toggleAddon initialFormData "online") "storage")
      "online" "storage"
      (FormReachable.addon _ "storage" (FormReachable.addon _ "online" FormReachable.initial))
      (by decide)).2.2.2.1⟩

theorem mem_offered (step : Int) (b : Button) :
    b ∈ offered step ↔
      ((step = 1 ∧ b = Button.nextStep) ∨
       (step = 2 ∧ (b = Button.goBack ∨ b = Button.nextStep)) ∨
       (step = 3 ∧ (b = Button.goBack ∨ b = Button.nextStep)) ∨
       (step = 4 ∧ (b = Button.goBack ∨ b = Button.confirm))) := by
  unfold offered
  by_cases h1 : step = 1
  · subst h1; simp
  · by_cases h2 : step = 2
    · subst h2; simp
    · by_cases h3 : step = 3
      · subst h3; simp
      · by_cases h4 : step = 4
        · subst h4; simp
        · simp [h1, h2, h3, h4]

theorem stepReachable_bounds {step : Int} (h : StepReachable step) : 1 ≤ step ∧ step ≤ 5 := by
  induction h with
  | start => decide
  | click step b _ hb ih =>
    rw [mem_offered] at hb
    rcases hb with ⟨rfl, rfl⟩ | ⟨rfl, rfl | rfl⟩ | ⟨rfl, rfl | rfl⟩ | ⟨rfl, rfl | rfl⟩ <;> decide

/-- C22: from step 1, through the buttons that the render offers (Next Step at steps 1-3, Go
Back at steps 2-4, Confirm at step 4), the step stays within 1 and 5; an offered button leads
to a step within 1 and 5, and to step 5 exactly when it is Confirm at step 4; and step 5
offers no button. -/
theorem step_machine (step : Int) (b : Button) (h : StepReachable step)
    (hb : b ∈ offered step) :
    (1 ≤ step ∧ step ≤ 5) ∧
    (1 ≤ press step b ∧ press step b ≤ 5) ∧
    (press step b = 5 ↔ (step = 4 ∧ b = Button.confirm)) ∧
    step ≠ 5 ∧
    offered 5 = [] ∧
    offered 1 = [Button.nextStep] ∧
    offered 2 = [Button.goBack, Button.nextStep] ∧
    offered 3 = [Button.goBack, Button.nextStep] ∧
    offered 4 = [Button.goBack, Button.confirm] ∧
    (∀ n : Int, n < 1 ∨ 5 ≤ n → offered n = []) := by
  have hnext := stepReachable_bounds (StepReachable.click step b h hb)
  refine ⟨stepReachable_bounds h, hnext, ?_, ?_, by decide, by decide, by decide, by decide,
    by decide, ?_⟩
  · rw [mem_offered] at hb
    rcases hb with ⟨rfl, rfl⟩ | ⟨rfl, rfl | rfl⟩ | ⟨rfl, rfl | rfl⟩ | ⟨rfl, rfl | rfl⟩ <;> decide
  · rw [mem_offered] at hb
    rcases hb with ⟨rfl, _⟩ | ⟨rfl, _⟩ | ⟨rfl, _⟩ | ⟨rfl, _⟩ <;> decide
  · intro n hn
    unfold offered
    have h1 : n ≠ 1 := by omega
    have h2 : n ≠ 2 := by omega
    have h3 : n ≠ 3 := by omega
    have h4 : n ≠ 4 := by omega
    simp [h1, h2, h3, h4]

/-- C22 (witness): Next Step three times from step 1, then Confirm at step 4, reaches 5. -/
theorem step_machine_witness :
    press (press (press 1 Button.nextStep) Button.nextStep) Button.nextStep = 4 ∧
    Button.confirm ∈ offered (press (press (press 1 Button.nextStep) Button.nextStep) Button.nextStep) ∧
    press (press (press (press 1 Button.nextStep) Button.nextStep) Button.nextStep) Button.confirm
      = 5 ∧
    (1 ≤ press (press (press (press 1 Button.nextStep) Button.nextStep) Button.nextStep)
        Button.confirm ∧
     press (press (press (press 1 Button.nextStep) Button.nextStep) Button.nextStep)
        Button.confirm ≤ 5) :=
  ⟨by decide, by decide, by decide,
   (step_machine (press (press (press 1 Button.nextStep) Button.nextStep) Button.nextStep)
      Button.confirm
      (StepReachable.click _ Button.nextStep
        (StepReachable.click _ Button.nextStep
          (StepReachable.click 1 Button.nextStep StepReachable.start (by decide)) (by decide))
        (by decide))
      (by decide)).2.1⟩

end MultiStepForm

namespace TodoApp

theorem trimChars_eq_nil_iff (cs : List Char) :
    trimChars cs = [] ↔ cs.all jsIsWhiteSpace = true := by
  unfold trimChars
  rw [List.reverse_eq_nil_iff, List.dropWhile_eq_nil_iff, List.all_eq_true]
  constructor
  · intro h
    have hnil : cs.dropWhile jsIsWhiteSpace = [] := by
      cases hd : cs.dropWhile jsIsWhiteSpace with
      | nil => rfl
      | cons c rest =>
        have hne : cs.dropWhile jsIsWhiteSpace ≠ [] := by rw [hd]; exact List.cons_ne_nil _ _
        have hnot := List.head_dropWhile_not jsIsWhiteSpace cs hne
        have hmem : (cs.dropWhile jsIsWhiteSpace).head hne ∈ (cs.dropWhile jsIsWhiteSpace).reverse :=
          List.mem_reverse.mpr (List.head_mem hne)
        have hws := h _ hmem
        rw [hnot] at hws
        exact absurd hws (by decide)
    exact List.dropWhile_eq_nil_iff.mp hnil
  · intro h x hx
    have hnil : cs.dropWhile jsIsWhiteSpace = [] := List.dropWhile_eq_nil_iff.mpr h
    rw [hnil] at hx
    simp at hx

theorem jsTrim_eq_empty_iff (text : String) :
    jsTrim text = "" ↔ text.toList.all jsIsWhiteSpace = true := by
  rw [← trimChars_eq_nil_iff]
  unfold jsTrim
  constructor
  · intro h
    have := congrArg String.toList h
    simpa using this
  · intro h
    rw [h]

theorem toggleTodo_toggleTodo (s : State) (id : Nat) : toggleTodo (toggleTodo s id) id = s := by
  cases s with
  | mk todos text filter theme draggedIndex =>
    simp only [toggleTodo, List.map_map, State.mk.injEq, and_true]
    conv_rhs => rw [← List.map_id todos]
    apply List.map_congr_left
    intro t _
    cases t with
    | mk tid ttext tcompleted =>
      by_cases h : tid = id <;> simp [h]

/-- C23: `clearCompleted` returns the not-completed todos of the previous list in their
order: the result is that filter, a sublist holding exactly the active todos and no completed
one; the "items left" count is unchanged, and a second `clearCompleted` changes nothing. -/
theorem clearCompleted_spec (s : State) :
    (clearCompleted s).todos = s.todos.filter (fun t => !t.completed) ∧
    (clearCompleted s).todos.Sublist s.todos ∧
    (∀ t : Todo, t ∈ (clearCompleted s).todos ↔ (t ∈ s.todos ∧ t.completed = false)) ∧
    (clearCompleted s).todos.all (fun t => !t.completed) = true ∧
    itemsLeft (clearCompleted s) = itemsLeft s ∧
    clearCompleted (clearCompleted s) = clearCompleted s ∧
    clearCompleted s = { s with todos := (clearCompleted s).todos } ∧
    (clearCompleted dragExample).todos.map (fun t => t.text) = ["a", "c", "d"] := by
  refine ⟨rfl, List.filter_sublist _, ?_, ?_, ?_, ?_, rfl, by decide⟩
  · intro t
    simp [clearCompleted, List.mem_filter]
  · simp [clearCompleted, List.all_eq_true, List.mem_filter]
  · simp [itemsLeft, clearCompleted, List.filter_filter]
  · simp [clearCompleted, List.filter_filter]

/-- C24: `addTodo` leaves the state unchanged when the input text is empty or only white
space (its trimmed value is empty), and otherwise prepends a not-completed todo whose text is
the trimmed input to the previous list and resets the input text to empty. -/
theorem addTodo_spec (s : State) (now : Nat) :
    (jsTrim s.text = "" ↔ s.text.toList.all jsIsWhiteSpace = true) ∧
    addTodo s now =
      (if s.text.toList.all jsIsWhiteSpace = true then s
       else { s with
         todos := { id := now, text := jsTrim s.text, completed := false } :: s.todos
         text := "" }) ∧
    addTodo { s with text := "" } now = { s with text := "" } ∧
    addTodo { s with text := " \t\n" } now = { s with text := " \t\n" } ∧
    (addTodo typingExample now).todos
      = { id := now, text := "buy milk", completed := false } :: typingExample.todos ∧
    (addTodo typingExample now).text = "" := by
  have hiff := jsTrim_eq_empty_iff s.text
  refine ⟨hiff, ?_, ?_, ?_, ?_, ?_⟩
  · by_cases h : s.text.toList.all jsIsWhiteSpace = true
    · have ht : jsTrim s.text = "" := hiff.mpr h
      simp only [addTodo]
      rw [if_pos ht, if_pos h]
    · have ht : ¬ jsTrim s.text = "" := fun e => h (hiff.mp e)
      simp only [addTodo]
      rw [if_neg ht, if_neg h]
  · have e : jsTrim "" = "" := by decide
    simp only [addTodo, e, if_true]
  · have e : jsTrim " \t\n" = "" := by decide
    simp only [addTodo, e, if_true]
  · have e : jsTrim typingExample.text = "buy milk" := by decide
    have ne : ¬ ("buy milk" = "") := by decide
    simp only [addTodo, e, ne, if_false]
  · have e : jsTrim typingExample.text = "buy milk" := by decide
    have ne : ¬ ("buy milk" = "") := by decide
    simp only [addTodo, e, ne, if_false]

/-- C25: `toggleTodo(id)` keeps the number, position, id and text of all todos, flips the
completed flag of exactly the todos whose id is `id` and leaves the others as they are; two
calls of `toggleTodo(id)` restore the original list. -/
theorem toggleTodo_spec (s : State) (id : Nat) (i : Nat) :
    (toggleTodo s id).todos.length = s.todos.length ∧
    (toggleTodo s id).todos.map (fun t => t.id) = s.todos.map (fun t => t.id) ∧
    (toggleTodo s id).todos.map (fun t => t.text) = s.todos.map (fun t => t.text) ∧
    (toggleTodo s id).todos.get? i
      = (s.todos.get? i).map
          (fun t => if t.id = id then { t with completed := !t.completed } else t) ∧
    (toggleTodo s id).todos.map (fun t => t.completed)
      = s.todos.map (fun t => if t.id = id then !t.completed else t.completed) ∧
    toggleTodo s id = { s with todos := (toggleTodo s id).todos } ∧
    toggleTodo (toggleTodo s id) id = s ∧
    (toggleTodo dragExample 2).todos.map (fun t => t.completed) = [false, false, false, false] := by
  refine ⟨?_, ?_, ?_, ?_, ?_, rfl, toggleTodo_toggleTodo s id, by decide⟩
  · simp [toggleTodo]
  · simp only [toggleTodo, List.map_map]
    apply List.map_congr_left
    intro t _
    by_cases h : t.id = id <;> simp [h]
  · simp only [toggleTodo, List.map_map]
    apply List.map_congr_left
    intro t _
    by_cases h : t.id = id <;> simp [h]
  · simp only [toggleTodo, List.get?_eq_getElem?, List.getElem?_map]
  · simp only [toggleTodo, List.map_map]
    apply List.map_congr_left
    intro t _
    by_cases h : t.id = id <;> simp [h]

end TodoApp

namespace WeatherApp

/-! ## The fetch that never stores, and what follows from it -/

theorem fetchWeather_records (s : State) (displayName : String) (resp : ForecastResponse) :
    (fetchWeather s displayName resp).selectedDayIndex = s.selectedDayIndex ∧
    (fetchWeather s displayName resp).current = s.current ∧
    (fetchWeather s displayName resp).hourly = s.hourly ∧
    (fetchWeather s displayName resp).daily = s.daily ∧
    (fetchWeather s displayName resp).units = s.units ∧
    (fetchWeather s displayName resp).location = s.location ∧
    (fetchWeather s displayName resp).query = s.query ∧
    (fetchWeather s displayName resp).loading = false ∧
    (fetchWeather s displayName resp).error ≠ "" := by
  cases resp <;>
    simp only [fetchWeather, true_and] <;>
    exact messageOr_ne_empty _ _ (by decide)

theorem handleSearch_records (s : State) (geo : GeocodeResponse) (resp : ForecastResponse) :
    (handleSearch s geo resp).selectedDayIndex = s.selectedDayIndex ∧
    (handleSearch s geo resp).current = s.current ∧
    (handleSearch s geo resp).hourly = s.hourly ∧
    (handleSearch s geo resp).daily = s.daily := by
  unfold handleSearch
  split
  · exact ⟨rfl, rfl, rfl, rfl⟩
  · split
    · exact ⟨rfl, rfl, rfl, rfl⟩
    · rename_i place _
      have h := fetchWeather_records
        { s with loading := true, error := "", location :=
            { name := displayNameOf place, lat := place.latitude, lon := place.longitude } }
        (displayNameOf place) resp
      exact ⟨h.1, h.2.1, h.2.2.1, h.2.2.2.1⟩

theorem reachable_holds_no_records {s : State} (h : Reachable s) :
    s.current = none ∧ s.hourly = [] ∧ s.daily = [] ∧ s.selectedDayIndex = 0 := by
  induction h with
  | initial => exact ⟨rfl, rfl, rfl, rfl⟩
  | effect s resp _ ih =>
    have h := fetchWeather_records s s.location.name resp
    exact ⟨h.2.1.trans ih.1, h.2.2.1.trans ih.2.1, h.2.2.2.1.trans ih.2.2.1, h.1.trans ih.2.2.2⟩
  | search s geo resp _ ih =>
    have h := handleSearch_records s geo resp
    exact ⟨h.2.1.trans ih.1, h.2.2.1.trans ih.2.1, h.2.2.2.trans ih.2.2.1, h.1.trans ih.2.2.2⟩
  | toggle s resp _ ih =>
    have h := fetchWeather_records (toggleUnits s) s.location.name resp
    exact ⟨h.2.1.trans ih.1, h.2.2.1.trans ih.2.1, h.2.2.2.1.trans ih.2.2.1, h.1.trans ih.2.2.2⟩
  | typed s value _ ih => exact ih
  | clickDay s idx _ hidx ih =>
    rw [ih.2.2.1] at hidx
    simp at hidx
  | chooseDay s i _ hi ih =>
    rw [ih.2.2.1] at hi
    simp at hi

theorem display_congr (a b : State) (hu : a.units = b.units)
    (hi : a.selectedDayIndex = b.selectedDayIndex) (hc : a.current = b.current)
    (hh : a.hourly = b.hourly) (hd : a.daily = b.daily) :
    currentTempText a = currentTempText b ∧ windText a = windText b ∧
    precipText a = precipText b ∧ dailyTempTexts a = dailyTempTexts b ∧
    hourlyTempTexts a = hourlyTempTexts b := by
  cases a
  cases b
  simp only at hu hi hc hh hd
  subst hu hi hc hh hd
  exact ⟨rfl, rfl, rfl, rfl, rfl⟩

theorem toggleUnitsWithEffect_units (s : State) (resp : ForecastResponse) :
    (toggleUnitsWithEffect s resp).units
      = (if s.units = Units.metric then Units.imperial else Units.metric) := by
  have h := fetchWeather_records (toggleUnits s) s.location.name resp
  exact h.2.2.2.2.1

theorem mathRound_of_bounds (q : ℚ) (z : Int) (h1 : (z : ℚ) ≤ q + 1 / 2)
    (h2 : q + 1 / 2 < (z : ℚ) + 1) : mathRound q = z := by
  unfold mathRound
  rw [Int.floor_eq_iff]
  exact ⟨h1, h2⟩

/-- C1 (the code at the failing input): for the payload that the provider sends under
Imperial units, the loops of lines 105-133 copy the Fahrenheit values 68, 77 and 59 unchanged
into the hourly `tempC` and the daily `maxC`/`minC` (their Celsius conversions are 20, 25 and
15), while line 139 converts the same 68 °F to 20 for the current record; `toDisplayTemp` then
shows the current 20 as 68 and the unconverted 68, 77 and 59 as 154, 171 and 138. -/
theorem normalisation_keeps_fahrenheit :
    temperature_unit Units.imperial = "fahrenheit" ∧
    (buildHourly fahrenheitPayload).map (fun hs => hs.map (fun h => h.tempC))
      = some [JsVal.num 68] ∧
    (buildDaily fahrenheitPayload).map (fun ds => ds.map (fun d => (d.maxC, d.minC)))
      = some [(JsVal.num 77, JsVal.num 59)] ∧
    fahrenheitToCelsius 68 = 20 ∧ fahrenheitToCelsius 77 = 25 ∧ fahrenheitToCelsius 59 = 15 ∧
    currentTempC Units.imperial fahrenheitPayload.current_weather = JsVal.num 20 ∧
    (toDisplayTemp Units.imperial (JsVal.num 20)).text = "68" ∧
    (toDisplayTemp Units.imperial (JsVal.num 68)).text = "154" ∧
    (toDisplayTemp Units.imperial (JsVal.num 77)).text = "171" ∧
    (toDisplayTemp Units.imperial (JsVal.num 59)).text = "138" := by
  have c68 : fahrenheitToCelsius 68 = 20 := by norm_num [fahrenheitToCelsius]
  have r20 : mathRound (celsiusToFahrenheit 20) = 68 :=
    mathRound_of_bounds _ _ (by norm_num [celsiusToFahrenheit]) (by norm_num [celsiusToFahrenheit])
  have r68 : mathRound (celsiusToFahrenheit 68) = 154 :=
    mathRound_of_bounds _ _ (by norm_num [celsiusToFahrenheit]) (by norm_num [celsiusToFahrenheit])
  have r77 : mathRound (celsiusToFahrenheit 77) = 171 :=
    mathRound_of_bounds _ _ (by norm_num [celsiusToFahrenheit]) (by norm_num [celsiusToFahrenheit])
  have r59 : mathRound (celsiusToFahrenheit 59) = 138 :=
    mathRound_of_bounds _ _ (by norm_num [celsiusToFahrenheit]) (by norm_num [celsiusToFahrenheit])
  refine ⟨by decide, by decide, by decide, c68, by norm_num [fahrenheitToCelsius],
    by norm_num [fahrenheitToCelsius], ?_, ?_, ?_, ?_, ?_⟩
  · show JsVal.num (fahrenheitToCelsius 68) = JsVal.num 20
    rw [c68]
  · show (toString (mathRound (celsiusToFahrenheit 20)) : String) = "68"
    rw [r20]; decide
  · show (toString (mathRound (celsiusToFahrenheit 68)) : String) = "154"
    rw [r68]; decide
  · show (toString (mathRound (celsiusToFahrenheit 77)) : String) = "171"
    rw [r77]; decide
  · show (toString (mathRound (celsiusToFahrenheit 59)) : String) = "138"
    rw [r59]; decide

/-- C2: for every widget state and every answer of the provider, the unit toggle (`toggleUnits`
followed by the effect on `[units]`) flips the unit system and leaves `selectedDayIndex`,
the location, the query and the stored current, hourly and daily records as they were: the
refetch of the effect ends in the `catch` of `fetchWeather` whatever the answer. -/
theorem toggleUnitsWithEffect_frame (s : State) (resp : ForecastResponse) :
    (toggleUnitsWithEffect s resp).units
      = (if s.units = Units.metric then Units.imperial else Units.metric) ∧
    (toggleUnitsWithEffect s resp).units ≠ s.units ∧
    (toggleUnitsWithEffect s resp).selectedDayIndex = s.selectedDayIndex ∧
    (toggleUnitsWithEffect s resp).location = s.location ∧
    (toggleUnitsWithEffect s resp).current = s.current ∧
    (toggleUnitsWithEffect s resp).hourly = s.hourly ∧
    (toggleUnitsWithEffect s resp).daily = s.daily ∧
    (toggleUnitsWithEffect s resp).query = s.query ∧
    toggleUnits s = { s with units := (toggleUnits s).units } ∧
    (toggleUnitsWithEffect weekState (ForecastResponse.ok fahrenheitPayload)).selectedDayIndex
      = 3 ∧
    (toggleUnitsWithEffect weekState (ForecastResponse.ok fahrenheitPayload)).daily
      = weekDaily := by
  have h := fetchWeather_records (toggleUnits s) s.location.name resp
  have hu := toggleUnitsWithEffect_units s resp
  refine ⟨hu, ?_, h.1, h.2.2.2.2.2.1, h.2.1, h.2.2.1, h.2.2.2.1, h.2.2.2.2.2.2.1, rfl,
    (fetchWeather_records (toggleUnits weekState) weekState.location.name
      (ForecastResponse.ok fahrenheitPayload)).1,
    (fetchWeather_records (toggleUnits weekState) weekState.location.name
      (ForecastResponse.ok fahrenheitPayload)).2.2.2.1⟩
  rw [hu]
  cases s.units <;> decide

/-- C4 (the code at the failing input): on mount, the fetch for Berlin answered with a week of
forecast stores nothing: the state is the initial one with the error of the `ReferenceError`,
the daily sequence stays empty, and from a state whose index is 3 the index stays 3; the block
of lines 101-146, which is not reached, would store the seven days and set the index to 0. -/
theorem fetchWeather_ok_stores_nothing :
    unitsEffect initialState (ForecastResponse.ok weekPayload)
      = { initialState with error := "err is not defined" } ∧
    (unitsEffect initialState (ForecastResponse.ok weekPayload)).daily = [] ∧
    (unitsEffect initialState (ForecastResponse.ok weekPayload)).current = none ∧
    (fetchWeather weekState "Berlin, Germany" (ForecastResponse.ok weekPayload)).selectedDayIndex
      = 3 ∧
    (storeForecast initialState "Berlin, Germany" weekPayload).map
        (fun s => (s.daily, s.selectedDayIndex)) = some (weekDaily, 0) ∧
    (∀ (s : State) (displayName : String) (data : Payload),
      (fetchWeather s displayName (ForecastResponse.ok data)).selectedDayIndex
        = s.selectedDayIndex ∧
      (fetchWeather s displayName (ForecastResponse.ok data)).current = s.current ∧
      (fetchWeather s displayName (ForecastResponse.ok data)).hourly = s.hourly ∧
      (fetchWeather s displayName (ForecastResponse.ok data)).daily = s.daily ∧
      (fetchWeather s displayName (ForecastResponse.ok data)).error = referenceErrorMessage) := by
  refine ⟨?_, rfl, rfl, rfl, by decide, ?_⟩
  · simp [unitsEffect, fetchWeather, initialState, messageOr, referenceErrorMessage]
  · intro s displayName data
    refine ⟨rfl, rfl, rfl, rfl, ?_⟩
    simp [fetchWeather, messageOr, referenceErrorMessage]


/-- C10: for every widget state and every pair of answers of the provider, two unit toggles
(each `toggleUnits` followed by the effect on `[units]`) return the unit system to its value,
one toggle having changed it, and the displayed current temperature, wind, precipitation,
daily maxima and minima and hourly temperatures are the same strings as before the two
toggles; for `weekState` the current temperature reads "20°", "68°" after one toggle and
"20°" again after two, and the wind "18 km/h", "11 mph", "18 km/h". -/
theorem toggleUnits_twice (s : State) (r1 r2 : ForecastResponse) :
    (toggleUnitsWithEffect s r1).units ≠ s.units ∧
    (toggleUnitsWithEffect (toggleUnitsWithEffect s r1) r2).units = s.units ∧
    currentTempText (toggleUnitsWithEffect (toggleUnitsWithEffect s r1) r2)
      = currentTempText s ∧
    windText (toggleUnitsWithEffect (toggleUnitsWithEffect s r1) r2) = windText s ∧
    precipText (toggleUnitsWithEffect (toggleUnitsWithEffect s r1) r2) = precipText s ∧
    dailyTempTexts (toggleUnitsWithEffect (toggleUnitsWithEffect s r1) r2)
      = dailyTempTexts s ∧
    hourlyTempTexts (toggleUnitsWithEffect (toggleUnitsWithEffect s r1) r2)
      = hourlyTempTexts s ∧
    toggleUnits (toggleUnits s) = s ∧
    currentTempText weekState = "20°" ∧
    currentTempText (toggleUnitsWithEffect weekState r1) = "68°" ∧
    currentTempText (toggleUnitsWithEffect (toggleUnitsWithEffect weekState r1) r2) = "20°" ∧
    windText weekState = "18 km/h" ∧
    windText (toggleUnitsWithEffect weekState r1) = "11 mph" ∧
    windText (toggleUnitsWithEffect (toggleUnitsWithEffect weekState r1) r2) = "18 km/h" := by
  have h1 := fetchWeather_records (toggleUnits s) s.location.name r1
  have h2 := fetchWeather_records (toggleUnits (toggleUnitsWithEffect s r1))
    (toggleUnitsWithEffect s r1).location.name r2
  have u1 := toggleUnitsWithEffect_units s r1
  have u2 := toggleUnitsWithEffect_units (toggleUnitsWithEffect s r1) r2
  have hne : (toggleUnitsWithEffect s r1).units ≠ s.units := by
    rw [u1]; cases s.units <;> decide
  have hu : (toggleUnitsWithEffect (toggleUnitsWithEffect s r1) r2).units = s.units := by
    rw [u2, u1]; cases s.units <;> decide
  have same := fun (t : State) (a b : ForecastResponse) =>
    display_congr (toggleUnitsWithEffect (toggleUnitsWithEffect t a) b) t
      (by
        rw [toggleUnitsWithEffect_units, toggleUnitsWithEffect_units]
        cases t.units <;> decide)
      ((fetchWeather_records (toggleUnits (toggleUnitsWithEffect t a))
          (toggleUnitsWithEffect t a).location.name b).1.trans
        (fetchWeather_records (toggleUnits t) t.location.name a).1)
      ((fetchWeather_records (toggleUnits (toggleUnitsWithEffect t a))
          (toggleUnitsWithEffect t a).location.name b).2.1.trans
        (fetchWeather_records (toggleUnits t) t.location.name a).2.1)
      ((fetchWeather_records (toggleUnits (toggleUnitsWithEffect t a))
          (toggleUnitsWithEffect t a).location.name b).2.2.1.trans
        (fetchWeather_records (toggleUnits t) t.location.name a).2.2.1)
      ((fetchWeather_records (toggleUnits (toggleUnitsWithEffect t a))
          (toggleUnitsWithEffect t a).location.name b).2.2.2.1.trans
        (fetchWeather_records (toggleUnits t) t.location.name a).2.2.2.1)
  have hs := same s r1 r2
  have hw := same weekState r1 r2
  have once := display_congr (toggleUnitsWithEffect weekState r1) imperialState
    (toggleUnitsWithEffect_units weekState r1)
    (fetchWeather_records (toggleUnits weekState) weekState.location.name r1).1
    (fetchWeather_records (toggleUnits weekState) weekState.location.name r1).2.1
    (fetchWeather_records (toggleUnits weekState) weekState.location.name r1).2.2.1
    (fetchWeather_records (toggleUnits weekState) weekState.location.name r1).2.2.2.1
  have r20 : mathRound 20 = 20 := mathRound_of_bounds _ _ (by norm_num) (by norm_num)
  have r68 : mathRound (celsiusToFahrenheit 20) = 68 :=
    mathRound_of_bounds _ _ (by norm_num [celsiusToFahrenheit]) (by norm_num [celsiusToFahrenheit])
  have r18 : mathRound (mpsToKmh 5) = 18 :=
    mathRound_of_bounds _ _ (by norm_num [mpsToKmh]) (by norm_num [mpsToKmh])
  have r11 : mathRound (mpsToMph 5) = 11 :=
    mathRound_of_bounds _ _ (by norm_num [mpsToMph]) (by norm_num [mpsToMph])
  have t20 : currentTempText weekState = "20°" := by
    show (toString (mathRound 20) : String) ++ "°" = "20°"
    rw [r20]; decide
  have t68 : currentTempText imperialState = "68°" := by
    show (toString (mathRound (celsiusToFahrenheit 20)) : String) ++ "°" = "68°"
    rw [r68]; decide
  have w18 : windText weekState = "18 km/h" := by
    show (toString (mathRound (mpsToKmh 5)) : String) ++ " km/h" = "18 km/h"
    rw [r18]; decide
  have w11 : windText imperialState = "11 mph" := by
    show (toString (mathRound (mpsToMph 5)) : String) ++ " mph" = "11 mph"
    rw [r11]; decide
  exact ⟨hne, hu, hs.1, hs.2.1, hs.2.2.1, hs.2.2.2.1, hs.2.2.2.2, toggleUnits_toggleUnits s,
    t20, once.1.trans t68, hw.1.trans t20, w18, once.2.1.trans w11, hw.2.1.trans w18⟩

/-- C13: the current-temperature block shows the converted temperature of the stored current
record when the record carries one; when it carries none (`null` or `undefined`), the
converted temperature of the first hourly record; and with no current record and an empty
hourly sequence, the dash, which is the case in every state that the widget reaches. -/
theorem currentTempText_fallback (r : State) (hr : Reachable r) (s : State) (c : Current)
    (q : ℚ) (h : HourlyRecord) (rest : List HourlyRecord) :
    currentTempText { s with current := some { c with tempC := JsVal.num q } }
      = (toDisplayTemp s.units (JsVal.num q)).text ++ "°" ∧
    currentTempText { s with current := some { c with tempC := JsVal.null },
                             hourly := { h with tempC := JsVal.num q } :: rest }
      = (toDisplayTemp s.units (JsVal.num q)).text ++ "°" ∧
    currentTempText { s with current := some { c with tempC := JsVal.undefined },
                             hourly := { h with tempC := JsVal.num q } :: rest }
      = (toDisplayTemp s.units (JsVal.num q)).text ++ "°" ∧
    currentTempText { s with current := none, hourly := [] } = "—" ∧
    (r.current = none ∧ r.hourly = [] ∧ currentTempText r = "—") ∧
    currentTempText weekState = "20°" ∧
    currentTempText imperialState = "68°" ∧
    currentTempText { imperialState with
        current := some { temperature := JsVal.undefined, windspeed := JsVal.undefined,
                          displayName := "Berlin, Germany", tempC := JsVal.null,
                          weathercode := JsVal.null, wind_mps := JsVal.null } } = "68°" := by
  have hr0 := reachable_holds_no_records hr
  have hdash : currentTempText r = "—" := by
    unfold currentTempText
    rw [hr0.1]
  have r20 : mathRound 20 = 20 := mathRound_of_bounds _ _ (by norm_num) (by norm_num)
  have r68 : mathRound (celsiusToFahrenheit 20) = 68 :=
    mathRound_of_bounds _ _ (by norm_num [celsiusToFahrenheit]) (by norm_num [celsiusToFahrenheit])
  refine ⟨rfl, rfl, rfl, rfl, ⟨hr0.1, hr0.2.1, hdash⟩, ?_, ?_, ?_⟩
  · show (toString (mathRound 20) : String) ++ "°" = "20°"
    rw [r20]; decide
  · show (toString (mathRound (celsiusToFahrenheit 20)) : String) ++ "°" = "68°"
    rw [r68]; decide
  · show (toString (mathRound (celsiusToFahrenheit 20)) : String) ++ "°" = "68°"
    rw [r68]; decide

/-- C13 (witness): the state after mount, the fetch for Berlin answered with a week of
forecast: no current record, no hourly record, the dash. -/
theorem currentTempText_fallback_witness :
    (unitsEffect initialState (ForecastResponse.ok weekPayload)).current = none ∧
    (unitsEffect initialState (ForecastResponse.ok weekPayload)).hourly = [] ∧
    currentTempText (unitsEffect initialState (ForecastResponse.ok weekPayload)) = "—" :=
  (currentTempText_fallback (unitsEffect initialState (ForecastResponse.ok weekPayload))
    (Reachable.effect initialState (ForecastResponse.ok weekPayload) Reachable.initial)
    weekState
    { temperature := JsVal.num 20, windspeed := JsVal.num 18, displayName := "Berlin, Germany",
      tempC := JsVal.num 20, weathercode := JsVal.num 2, wind_mps := JsVal.num 5 }
    20 (hourAt "2025-08-05T12:00" 20) []).2.2.2.2.1


/-! ## Normalisation -/

theorem allOrThrow_map_some {α β : Type} (l : List α) (f : α → β) :
    allOrThrow (l.map (fun a => some (f a))) = some (l.map f) := by
  induction l with
  | nil => rfl
  | cons a rest ih => simp only [List.map_cons, allOrThrow, ih]

theorem orEmpty_of_not_null {α : Type} (f : JsArr α) (h : f.isNull = false) :
    f.orEmpty = some f.items := by
  cases f with
  | absent => rfl
  | null => simp [JsArr.isNull] at h
  | arr items => rfl

theorem readAt_of_not_null (f : JsArr JsVal) (h : f.isNull = false) (i : Nat) :
    readAt f i = some (jsIndex f.items i) := by
  unfold readAt
  rw [orEmpty_of_not_null f h]

theorem buildHourly_of_no_null (cw : Option CurrentWeather) (od : Option DailyGroup)
    (g : HourlyGroup) (hg : g.hasNull = false) :
    buildHourly { current_weather := cw, hourly := some g, daily := od }
      = some ((List.range g.time.items.length).map fun i =>
          { time := g.time.items.getD i ""
            tempC := jsIndex g.temperature_2m.items i
            humidity := jsIndex g.relativehumidity_2m.items i
            precipitation := jsIndex g.precipitation.items i
            weathercode := jsIndex g.weathercode.items i
            wind := jsIndex g.windspeed_10m.items i }) := by
  simp only [HourlyGroup.hasNull, Bool.or_eq_false_iff] at hg
  obtain ⟨⟨⟨⟨⟨h0, h1⟩, h2⟩, h3⟩, h4⟩, h5⟩ := hg
  simp only [buildHourly, orEmpty_of_not_null g.time h0]
  rw [← allOrThrow_map_some]
  congr 1
  apply List.map_congr_left
  intro i _
  simp only [hourlyRecord, readAt_of_not_null _ h1, readAt_of_not_null _ h2,
    readAt_of_not_null _ h3, readAt_of_not_null _ h4, readAt_of_not_null _ h5]

theorem buildDaily_of_no_null (cw : Option CurrentWeather) (oh : Option HourlyGroup)
    (g : DailyGroup) (hg : g.hasNull = false) :
    buildDaily { current_weather := cw, hourly := oh, daily := some g }
      = some ((List.range g.time.items.length).map fun i =>
          { date := g.time.items.getD i ""
            maxC := jsIndex g.temperature_2m_max.items i
            minC := jsIndex g.temperature_2m_min.items i
            precipitationSum := jsIndex g.precipitation_sum.items i
            weathercode := jsIndex g.weathercode.items i }) := by
  simp only [DailyGroup.hasNull, Bool.or_eq_false_iff] at hg
  obtain ⟨⟨⟨⟨h0, h1⟩, h2⟩, h3⟩, h4⟩ := hg
  simp only [buildDaily, orEmpty_of_not_null g.time h0]
  rw [← allOrThrow_map_some]
  congr 1
  apply List.map_congr_left
  intro i _
  simp only [dailyRecord, readAt_of_not_null _ h1, readAt_of_not_null _ h2,
    readAt_of_not_null _ h3, readAt_of_not_null _ h4]

theorem range_map_at {α β : Type} (time : List α) (f : α → Nat → β) (d : α) (i : Nat) :
    ((List.range time.length).map fun k => f (time.getD k d) k).get? i
      = (time.get? i).map (fun t => f t i) := by
  simp only [List.get?_eq_getElem?, List.getElem?_map]
  by_cases hi : i < time.length
  · simp [List.getElem?_range hi, List.getElem?_eq_getElem hi, List.getD_eq_getElem _ _ hi]
  · have hi2 : time.length ≤ i := Nat.le_of_not_lt hi
    simp [List.getElem?_eq_none hi2, List.getElem?_eq_none, hi2]

theorem range_map_getD {α : Type} (time : List α) (d : α) :
    ((List.range time.length).map fun k => time.getD k d) = time := by
  apply List.ext_get?
  intro i
  have h := range_map_at time (fun t _ => t) d i
  simpa using h

/-- C14 (counterexample): on a payload whose hourly group has JSON `null` in place of `time`,
the hourly loop throws (`time.length` of `null`), and so does the block of lines 101-146. -/
theorem normalisation_throws_on_null_time :
    buildHourly nullTimePayload = none ∧
    storeForecast initialState "Berlin, Germany" nullTimePayload = none := by
  refine ⟨by decide, by decide⟩

/-- C14 (amended): the normalisation of `fetchWeather` is total on every payload whose
groups hold no JSON `null` in place of an array: an absent group gives the empty sequence and
an absent field array gives `undefined` fields; a present group gives `len(time)` records, the
i-th record holding the i-th time and the i-th element of each parallel array (`undefined`
past the end of a shorter one), in provider order; a daily `time` of length 0 gives the empty
daily sequence.  With `null` in place of `time`, or in place of a field array of a group whose
`time` is not empty, the loop throws. -/
theorem normalisation_total (cw : Option CurrentWeather) (hg : HourlyGroup) (dg : DailyGroup)
    (oh : Option HourlyGroup) (od : Option DailyGroup) (i : Nat)
    (hh : hg.hasNull = false) (hd : dg.hasNull = false) :
    buildHourly { current_weather := cw, hourly := none, daily := od } = some [] ∧
    buildDaily { current_weather := cw, hourly := oh, daily := none } = some [] ∧
    (buildHourly { current_weather := cw, hourly := some hg, daily := od }).map List.length
      = some hg.time.items.length ∧
    (buildDaily { current_weather := cw, hourly := oh, daily := some dg }).map List.length
      = some dg.time.items.length ∧
    (buildHourly { current_weather := cw, hourly := some hg, daily := od }).map
        (fun records => records.get? i)
      = some ((hg.time.items.get? i).map fun t =>
          { time := t
            tempC := (hg.temperature_2m.items.get? i).getD JsVal.undefined
            humidity := (hg.relativehumidity_2m.items.get? i).getD JsVal.undefined
            precipitation := (hg.precipitation.items.get? i).getD JsVal.undefined
            weathercode := (hg.weathercode.items.get? i).getD JsVal.undefined
            wind := (hg.windspeed_10m.items.get? i).getD JsVal.undefined }) ∧
    (buildDaily { current_weather := cw, hourly := oh, daily := some dg }).map
        (fun records => records.get? i)
      = some ((dg.time.items.get? i).map fun t =>
          { date := t
            maxC := (dg.temperature_2m_max.items.get? i).getD JsVal.undefined
            minC := (dg.temperature_2m_min.items.get? i).getD JsVal.undefined
            precipitationSum := (dg.precipitation_sum.items.get? i).getD JsVal.undefined
            weathercode := (dg.weathercode.items.get? i).getD JsVal.undefined }) ∧
    (buildHourly { current_weather := cw, hourly := some hg, daily := od }).map
        (fun records => records.map (fun h => h.time)) = some hg.time.items ∧
    (buildDaily { current_weather := cw, hourly := oh, daily := some dg }).map
        (fun records => records.map (fun d => d.date)) = some dg.time.items ∧
    buildDaily { current_weather := cw, hourly := oh,
                 daily := some { dg with time := JsArr.arr [] } } = some [] ∧
    buildHourly { current_weather := cw, hourly := some { hg with time := JsArr.null },
                  daily := od } = none ∧
    (∀ (t : String) (ts : List String),
      buildHourly { current_weather := cw,
                    hourly := some { hg with time := JsArr.arr (t :: ts),
                                             temperature_2m := JsArr.null },
                    daily := od } = none) ∧
    buildHourly weekPayload = some weekHourly ∧
    buildDaily weekPayload = some weekDaily := by
  have eh := buildHourly_of_no_null cw od hg hh
  have ed := buildDaily_of_no_null cw oh dg hd
  refine ⟨rfl, rfl, ?_, ?_, ?_, ?_, ?_, ?_, rfl, rfl, ?_, by decide, by decide⟩
  · rw [eh]; simp
  · rw [ed]; simp
  · rw [eh, Option.map_some']
    exact congrArg some (range_map_at hg.time.items
      (fun t k =>
        ({ time := t
           tempC := jsIndex hg.temperature_2m.items k
           humidity := jsIndex hg.relativehumidity_2m.items k
           precipitation := jsIndex hg.precipitation.items k
           weathercode := jsIndex hg.weathercode.items k
           wind := jsIndex hg.windspeed_10m.items k } : HourlyRecord)) "" i)
  · rw [ed, Option.map_some']
    exact congrArg some (range_map_at dg.time.items
      (fun t k =>
        ({ date := t
           maxC := jsIndex dg.temperature_2m_max.items k
           minC := jsIndex dg.temperature_2m_min.items k
           precipitationSum := jsIndex dg.precipitation_sum.items k
           weathercode := jsIndex dg.weathercode.items k } : DailyRecord)) "" i)
  · rw [eh, Option.map_some', List.map_map]
    exact congrArg some (range_map_getD hg.time.items "")
  · rw [ed, Option.map_some', List.map_map]
    exact congrArg some (range_map_getD dg.time.items "")
  · intro t ts
    simp [buildHourly, JsArr.orEmpty, List.range_succ_eq_map, allOrThrow, hourlyRecord, readAt]

/-- C14 (witness): the two groups of `weekPayload`, six hours and seven days. -/
theorem normalisation_total_witness :
    (buildHourly weekPayload).map List.length = some 6 ∧
    (buildDaily weekPayload).map List.length = some 7 ∧
    (buildHourly weekPayload).map (fun records => records.get? 3)
      = some (some (hourAt "2025-08-08T12:00" 25)) :=
  ⟨by decide, by decide,
   ((normalisation_total weekPayload.current_weather
      { time := JsArr.arr ["2025-08-05T12:00", "2025-08-07T23:00", "2025-08-08T00:00",
                           "2025-08-08T12:00", "2025-08-08T23:00", "2025-08-09T00:00"]
        temperature_2m := JsArr.arr [JsVal.num 20, JsVal.num 15, JsVal.num 14,
                                     JsVal.num 25, JsVal.num 16, JsVal.num 15]
        relativehumidity_2m := JsArr.arr (List.replicate 6 (JsVal.num 46))
        precipitation := JsArr.arr (List.replicate 6 (JsVal.num 0))
        weathercode := JsArr.arr (List.replicate 6 (JsVal.num 2))
        windspeed_10m := JsArr.arr (List.replicate 6 (JsVal.num 4)) }
      { time := JsArr.arr ["2025-08-05"]
        temperature_2m_max := JsArr.absent
        temperature_2m_min := JsArr.absent
        precipitation_sum := JsArr.absent
        weathercode := JsArr.absent }
      none weekPayload.daily 3 (by decide) (by decide)).2.2.2.2.1).trans (by decide)⟩

end WeatherApp
